import Mathlib

/-!
Reference frames of gams (`gams/pose/ReferenceFrame.h`, `gams/utility/Pose.h`)

A shallow embedding of the frame identity / frame version / frame handle
model and of the coordinate value types, followed by theorems about them.

Conventions of the embedding

* `uint64_t` values are natural numbers; a conversion from a signed literal
  is written with an explicit `% 2 ^ 64` (`to_uint64`).
* a `double` is carried as its IEEE-754 binary64 bit pattern.
* `std::shared_ptr<T>` is an address into a store of `T` objects (`Heap`);
  `std::make_shared` appends a fresh object to the store.
* a `double &` parameter is the address of a `double` variable in a memory
  of doubles (`DoubleMem`); a function writing through references returns
  the memory after the call.
* overloads are told apart by their number of arguments (`pose1`, `pose2`,
  `timestamp0`, `timestamp1`, ...).
-/

namespace Gams

/-! ## Scalars -/

/-- A C++ `double`, kept as its IEEE-754 binary64 bit pattern. -/
structure Double where
  bits : Nat
  deriving DecidableEq, Repr

/-- Conversion of a signed integer to `uint64_t` (wraps modulo `2 ^ 64`). -/
def to_uint64 (i : Int) : Nat := (i % 2 ^ 64).toNat

/-- The `double` variables of the program: the value held at each address.
A `double &` parameter is the address of the variable it is bound to, so two
references bound to one variable are one address. -/
abbrev DoubleMem := Nat → Double

/-- Assignment through a reference: the variable at address `a` becomes `v`,
every other variable keeps its value. -/
def DoubleMem.write (m : DoubleMem) (a : Nat) (v : Double) : DoubleMem :=
  fun p => if p = a then v else m p

/-! ## Frame types and identities -/

/-- A `const ReferenceFrameType *`: the address of a frame type object.
Frame types are compared by address only. -/
structure TypePtr where
  addr : Nat
  deriving DecidableEq, Repr

/-- Modelled from the spec: the `ReferenceFrameType` struct is declared in
`ReferenceFrameFwd.h`, which is not among the sources. Only the members the
sources read are kept: `name` (read by `ReferenceFrameVersion::name`) and
the two function pointers called by `default_normalize_pose` as
`self->normalize_linear(self, x, y, z)` and
`self->normalize_angular(self, rx, ry, rz)`. Each receives the type itself
and three `double &`; it is any function from the memory before the call and
the three addresses to the memory after the call. -/
structure ReferenceFrameType where
  name : String
  normalize_linear : TypePtr → DoubleMem → Nat → Nat → Nat → DoubleMem
  normalize_angular : TypePtr → DoubleMem → Nat → Nat → Nat → DoubleMem

/-- The class `ReferenceFrameIdentity`: type and id of a logical frame. -/
structure ReferenceFrameIdentity where
  type_ : TypePtr
  id_ : String
  deriving DecidableEq, Repr

namespace ReferenceFrameIdentity

/-- `ReferenceFrameIdentity(type, id)`. -/
def mk2 (type : TypePtr) (id : String) : ReferenceFrameIdentity :=
  { type_ := type, id_ := id }

/-- `ReferenceFrameIdentity(type)`: the id is the literal `"DEFAULT"`. -/
def mk1 (type : TypePtr) : ReferenceFrameIdentity :=
  { type_ := type, id_ := "DEFAULT" }

/-- `ReferenceFrameIdentity::type()`. -/
def type (self : ReferenceFrameIdentity) : TypePtr := self.type_

/-- `ReferenceFrameIdentity::id()`. -/
def id (self : ReferenceFrameIdentity) : String := self.id_

end ReferenceFrameIdentity

/-! ## Handles and coordinate values -/

/-- Modelled from the spec: the handle class `ReferenceFrame` is declared in
`ReferenceFrameFwd.h`, which is not among the sources. Following section 3
(a FrameHandle is a shared-ownership wrapper around a FrameVersion) it is the
address of a version object, or nothing for an invalid handle. -/
structure ReferenceFrame where
  impl_ : Option Nat
  deriving DecidableEq, Repr

/-- Modelled from the spec: `LocationVector` is declared in `Location.h`,
which is not among the sources; three numbers x, y, z. -/
structure LocationVector where
  x : Double
  y : Double
  z : Double
  deriving DecidableEq, Repr

/-- Modelled from the spec: `OrientationVector` is declared in
`Orientation.h`, which is not among the sources; three numbers rx, ry, rz
(axis-angle). -/
structure OrientationVector where
  rx : Double
  ry : Double
  rz : Double
  deriving DecidableEq, Repr

/-- The class `PoseVector : LocationVector, OrientationVector`. -/
structure PoseVector extends LocationVector, OrientationVector
  deriving DecidableEq, Repr

/-- Modelled from the spec: `Location` is declared in `Location.h`, which is
not among the sources; a `LocationVector` bound to a frame handle. -/
structure Location extends LocationVector where
  frame_ : ReferenceFrame
  deriving DecidableEq, Repr

/-- `Position` is the name `ReferenceFrame.h` uses for a `Location`. -/
abbrev Position := Location

/-- Modelled from the spec: `Orientation` is declared in `Orientation.h`,
which is not among the sources; an `OrientationVector` bound to a frame
handle. -/
structure Orientation extends OrientationVector where
  frame_ : ReferenceFrame
  deriving DecidableEq, Repr

/-- The class `Pose : PoseVector, Coordinate<Pose>`: six numbers bound to a
frame handle. -/
structure Pose extends PoseVector where
  frame_ : ReferenceFrame
  deriving DecidableEq, Repr

namespace Pose

/-- `Coordinate<Pose>::frame()`: the frame this pose is bound to. -/
def frame (self : Pose) : ReferenceFrame := self.frame_

/-- Modelled from the spec: the body of
`Pose::Pose(const Location &, const Orientation &)` is in `Pose.inl`, which
is not among the sources. Its declaration in `Pose.h` documents it: the frame
is the frame of the input Location, no transformation is done, the
Orientation's frame is ignored and its values are taken directly. -/
def ofLocationOrientation (loc : Location) (rot : Orientation) : Pose :=
  { x := loc.x, y := loc.y, z := loc.z,
    rx := rot.rx, ry := rot.ry, rz := rot.rz,
    frame_ := loc.frame_ }

/-- Modelled from the spec: the body of `Pose::operator Location` is in
`Pose.inl`, which is not among the sources. Its declaration in `Pose.h`
documents it: a Location with the same frame as this pose and the same
x/y/z values. -/
def toLocation (self : Pose) : Location :=
  { x := self.x, y := self.y, z := self.z, frame_ := self.frame_ }

/-- Modelled from the spec: the body of `Pose::operator Orientation` is in
`Pose.inl`, which is not among the sources. Its declaration in `Pose.h`
documents it: an Orientation with the same frame as this pose and the same
rx/ry/rz values. -/
def toOrientation (self : Pose) : Orientation :=
  { rx := self.rx, ry := self.ry, rz := self.rz, frame_ := self.frame_ }

end Pose

/-! ## Frame versions and the object store -/

/-- The class `ReferenceFrameVersion`: a shared pointer to the identity, the
origin pose and the timestamp. -/
structure ReferenceFrameVersion where
  ident_ : Nat
  origin_ : Pose
  timestamp_ : Nat
  deriving DecidableEq, Repr

/-- The shared objects of the process: identity objects and version objects,
each addressed by its position. -/
structure Heap where
  idents : List ReferenceFrameIdentity
  versions : List ReferenceFrameVersion
  deriving DecidableEq, Repr

namespace Heap

/-- Dereference a shared pointer to an identity. -/
def ident? (h : Heap) (p : Nat) : Option ReferenceFrameIdentity := h.idents[p]?

/-- Dereference a frame handle. -/
def version? (h : Heap) (r : ReferenceFrame) : Option ReferenceFrameVersion :=
  match r.impl_ with
  | some a => h.versions[a]?
  | none => none

/-- `std::make_shared<ReferenceFrameIdentity>(...)`: a fresh identity object. -/
def make_shared_ident (h : Heap) (i : ReferenceFrameIdentity) : Heap × Nat :=
  ({ h with idents := h.idents ++ [i] }, h.idents.length)

/-- `std::make_shared<ReferenceFrameVersion>(...)`: a fresh version object. -/
def make_shared_version (h : Heap) (v : ReferenceFrameVersion) : Heap × ReferenceFrame :=
  ({ h with versions := h.versions ++ [v] }, { impl_ := some h.versions.length })

end Heap

/-- The objects with static storage the sources refer to but do not define:
the `Cartesian` frame type pointer (`CartesianFrame.h`), the memory holding
the frame type objects, and the value of `default_frame()`. -/
structure Statics where
  Cartesian : TypePtr
  types : TypePtr → ReferenceFrameType
  default_frame : ReferenceFrame

/-- The default argument `uint64_t timestamp = -1`. -/
def default_timestamp : Nat := to_uint64 (-1)

namespace ReferenceFrameVersion

/-- `explicit ReferenceFrameVersion(Pose origin, uint64_t timestamp)`. -/
def ofOrigin (S : Statics) (h : Heap) (origin : Pose) (timestamp : Nat) :
    Heap × ReferenceFrameVersion :=
  let a := h.make_shared_ident (ReferenceFrameIdentity.mk1 S.Cartesian)
  (a.1, { ident_ := a.2, origin_ := origin, timestamp_ := timestamp })

/-- `ReferenceFrameVersion(const ReferenceFrameType *type, Pose origin,
uint64_t timestamp)`. -/
def ofTypeOrigin (h : Heap) (type : TypePtr) (origin : Pose) (timestamp : Nat) :
    Heap × ReferenceFrameVersion :=
  let a := h.make_shared_ident (ReferenceFrameIdentity.mk1 type)
  (a.1, { ident_ := a.2, origin_ := origin, timestamp_ := timestamp })

/-- `ReferenceFrameVersion(std::string name, Pose origin, uint64_t timestamp)`. -/
def ofNameOrigin (S : Statics) (h : Heap) (name : String) (origin : Pose)
    (timestamp : Nat) : Heap × ReferenceFrameVersion :=
  let a := h.make_shared_ident (ReferenceFrameIdentity.mk2 S.Cartesian name)
  (a.1, { ident_ := a.2, origin_ := origin, timestamp_ := timestamp })

/-- `ReferenceFrameVersion(const ReferenceFrameType *type, std::string name,
Pose origin, uint64_t timestamp)`. -/
def ofTypeNameOrigin (h : Heap) (type : TypePtr) (name : String) (origin : Pose)
    (timestamp : Nat) : Heap × ReferenceFrameVersion :=
  let a := h.make_shared_ident (ReferenceFrameIdentity.mk2 type name)
  (a.1, { ident_ := a.2, origin_ := origin, timestamp_ := timestamp })

/-- `ReferenceFrameVersion(std::shared_ptr<ReferenceFrameIdentity> ident,
Pose origin, uint64_t timestamp)`. -/
def ofIdentOrigin (ident : Nat) (origin : Pose) (timestamp : Nat) :
    ReferenceFrameVersion :=
  { ident_ := ident, origin_ := origin, timestamp_ := timestamp }

/-- The first constructor called without a timestamp. -/
def ofOrigin_default (S : Statics) (h : Heap) (origin : Pose) :
    Heap × ReferenceFrameVersion :=
  ofOrigin S h origin default_timestamp

/-- The second constructor called without a timestamp. -/
def ofTypeOrigin_default (h : Heap) (type : TypePtr) (origin : Pose) :
    Heap × ReferenceFrameVersion :=
  ofTypeOrigin h type origin default_timestamp

/-- The third constructor called without a timestamp. -/
def ofNameOrigin_default (S : Statics) (h : Heap) (name : String) (origin : Pose) :
    Heap × ReferenceFrameVersion :=
  ofNameOrigin S h name origin default_timestamp

/-- The fourth constructor called without a timestamp. -/
def ofTypeNameOrigin_default (h : Heap) (type : TypePtr) (name : String)
    (origin : Pose) : Heap × ReferenceFrameVersion :=
  ofTypeNameOrigin h type name origin default_timestamp

/-- The fifth constructor called without a timestamp. -/
def ofIdentOrigin_default (ident : Nat) (origin : Pose) : ReferenceFrameVersion :=
  ofIdentOrigin ident origin default_timestamp

end ReferenceFrameVersion

/-- Modelled from the spec: the constructor of the handle class
`ReferenceFrame` used as `ReferenceFrame(ident_, origin, timestamp)` is in
`ReferenceFrameFwd.h`, which is not among the sources. Following section 3
(a functional update returns a new FrameVersion behind a FrameHandle) it
builds a fresh version object with the identity-pointer constructor and
returns the handle to it. -/
def ReferenceFrame.make (h : Heap) (ident : Nat) (origin : Pose) (timestamp : Nat) :
    Heap × ReferenceFrame :=
  h.make_shared_version (ReferenceFrameVersion.ofIdentOrigin ident origin timestamp)

namespace ReferenceFrameVersion

/-- `ident()`: the identity object, read through the shared pointer. -/
def ident (h : Heap) (self : ReferenceFrameVersion) : Option ReferenceFrameIdentity :=
  h.ident? self.ident_

/-- `type()`: `ident().type()`. -/
def type (h : Heap) (self : ReferenceFrameVersion) : Option TypePtr :=
  (self.ident h).map ReferenceFrameIdentity.type

/-- `origin()`. -/
def origin (self : ReferenceFrameVersion) : Pose := self.origin_

/-- `name()`: `ident().type()->name`. -/
def name (S : Statics) (h : Heap) (self : ReferenceFrameVersion) : Option String :=
  (self.ident h).map fun i => (S.types i.type).name

/-- `id()`: `ident_->id()`. -/
def id (h : Heap) (self : ReferenceFrameVersion) : Option String :=
  (h.ident? self.ident_).map ReferenceFrameIdentity.id

/-- `timestamp()`. -/
def timestamp0 (self : ReferenceFrameVersion) : Nat := self.timestamp_

/-- `pose(const Pose &new_origin, uint64_t timestamp)`. -/
def pose2 (h : Heap) (self : ReferenceFrameVersion) (new_origin : Pose)
    (timestamp : Nat) : Heap × ReferenceFrame :=
  ReferenceFrame.make h self.ident_ new_origin timestamp

/-- `move(const Position &new_origin, uint64_t timestamp)`. -/
def move2 (h : Heap) (self : ReferenceFrameVersion) (new_origin : Position)
    (timestamp : Nat) : Heap × ReferenceFrame :=
  pose2 h self (Pose.ofLocationOrientation new_origin self.origin_.toOrientation) timestamp

/-- `orient(const Orientation &new_origin, uint64_t timestamp)`. -/
def orient2 (h : Heap) (self : ReferenceFrameVersion) (new_origin : Orientation)
    (timestamp : Nat) : Heap × ReferenceFrame :=
  pose2 h self (Pose.ofLocationOrientation self.origin_.toLocation new_origin) timestamp

/-- `pose(Pose new_origin)`. -/
def pose1 (h : Heap) (self : ReferenceFrameVersion) (new_origin : Pose) :
    Heap × ReferenceFrame :=
  pose2 h self new_origin self.timestamp_

/-- `move(Position new_origin)`. -/
def move1 (h : Heap) (self : ReferenceFrameVersion) (new_origin : Position) :
    Heap × ReferenceFrame :=
  move2 h self new_origin self.timestamp_

/-- `orient(Orientation new_origin)`. -/
def orient1 (h : Heap) (self : ReferenceFrameVersion) (new_origin : Orientation) :
    Heap × ReferenceFrame :=
  orient2 h self new_origin self.timestamp_

/-- `origin_frame()`: `origin_.frame()`. -/
def origin_frame (self : ReferenceFrameVersion) : ReferenceFrame :=
  self.origin_.frame

/-- `timestamp(uint64_t timestamp)`: clone with a new timestamp. -/
def timestamp1 (h : Heap) (self : ReferenceFrameVersion) (timestamp : Nat) :
    Heap × ReferenceFrame :=
  ReferenceFrame.make h self.ident_ self.origin_ timestamp

/-- `interpolated()`. -/
def interpolated (_self : ReferenceFrameVersion) : Bool := false

end ReferenceFrameVersion

/-! ## Sequences of functional updates -/

/-- One functional update of a frame version: the one- and two-argument
forms of `pose`, `move` and `orient`, and `timestamp(uint64_t)`. -/
inductive Update where
  | pose1 (new_origin : Pose)
  | pose2 (new_origin : Pose) (timestamp : Nat)
  | move1 (new_origin : Position)
  | move2 (new_origin : Position) (timestamp : Nat)
  | orient1 (new_origin : Orientation)
  | orient2 (new_origin : Orientation) (timestamp : Nat)
  | timestamp1 (timestamp : Nat)
  deriving DecidableEq, Repr

/-- Call the method an `Update` names on a frame version. -/
def Update.apply (h : Heap) (f : ReferenceFrameVersion) : Update → Heap × ReferenceFrame
  | .pose1 p => f.pose1 h p
  | .pose2 p t => f.pose2 h p t
  | .move1 q => f.move1 h q
  | .move2 q t => f.move2 h q t
  | .orient1 o => f.orient1 h o
  | .orient2 o t => f.orient2 h o t
  | .timestamp1 t => f.timestamp1 h t

/-- Apply a sequence of updates, each to the frame the previous one
returned (read back through the returned handle). -/
def apply_updates (h : Heap) (f : ReferenceFrameVersion) :
    List Update → Option (Heap × ReferenceFrameVersion)
  | [] => some (h, f)
  | u :: us =>
    match (u.apply h f).1.version? (u.apply h f).2 with
    | some g => apply_updates (u.apply h f).1 g us
    | none => none

/-! ## Equality of frames -/

namespace ReferenceFrameVersion

/-- Modelled from the spec: the bodies of
`operator==(const ReferenceFrame &other)` and
`operator==(const ReferenceFrameVersion &other)` are in `ReferenceFrame.inl`,
which is not among the sources. Their declarations in `ReferenceFrame.h`
document both alike: true if both frames are the same object (i.e., same
address), otherwise the frames are not considered equal (false); section 2
says of the handle that its equality is identity-based, not structural. A
frame object is designated by the handle holding its address, `self` for
`*this`; a handle that holds no address designates no object. -/
def operator_eq (self other : ReferenceFrame) : Bool :=
  match self.impl_, other.impl_ with
  | some a, some b => a == b
  | _, _ => false

/-- Modelled from the spec: the bodies of the two `operator!=` are in
`ReferenceFrame.inl`, which is not among the sources. Their declarations in
`ReferenceFrame.h` document both alike: false if both frames are the same
object (i.e., same address), otherwise true. -/
def operator_ne (self other : ReferenceFrame) : Bool :=
  !operator_eq self other

end ReferenceFrameVersion

/-! ## Persistence -/

/-- Modelled from the spec: `madara::knowledge::KnowledgeBase` belongs to an
external library. Section 6: a key-value store whose native numeric-array
representation is an array of doubles. -/
structure KnowledgeBase where
  records : List (String × List Double)
  deriving DecidableEq, Repr

namespace ReferenceFrameVersion

/-- `save(madara::knowledge::KnowledgeBase &kb) const {}`: the body is empty,
the knowledge base is returned as it was received. -/
def save (_self : ReferenceFrameVersion) (kb : KnowledgeBase) : KnowledgeBase := kb

/-- `load(kb, id, timestamp)`: `{ return default_frame(); }`. The knowledge
base is taken by reference and not written. -/
def load (S : Statics) (_kb : KnowledgeBase) (_id : String) (_timestamp : Nat) :
    ReferenceFrame :=
  S.default_frame

end ReferenceFrameVersion

/-! ## Sample data -/

/-- A frame type object named "Cartesian" whose normalisers change nothing. -/
def sampleType : ReferenceFrameType :=
  { name := "Cartesian", normalize_linear := fun _ m _ _ _ => m,
    normalize_angular := fun _ m _ _ _ => m }

/-- Statics with `Cartesian` at address 0 and the default frame at version
address 0. -/
def sampleStatics : Statics :=
  { Cartesian := { addr := 0 }, types := fun _ => sampleType,
    default_frame := { impl_ := some 0 } }

/-- The pose with the given six bit patterns, bound to version 0. -/
def samplePose (x y z rx ry rz : Nat) : Pose :=
  { x := ⟨x⟩, y := ⟨y⟩, z := ⟨z⟩, rx := ⟨rx⟩, ry := ⟨ry⟩, rz := ⟨rz⟩,
    frame_ := { impl_ := some 0 } }

/-- A store with one identity ("world") and its root version, whose origin
is bound to itself. -/
def sampleHeap : Heap :=
  { idents := [ReferenceFrameIdentity.mk2 { addr := 0 } "world"],
    versions := [{ ident_ := 0, origin_ := samplePose 0 0 0 0 0 0,
                   timestamp_ := default_timestamp }] }

/-- A version of identity 0 at timestamp 5. -/
def sampleFrame : ReferenceFrameVersion :=
  { ident_ := 0, origin_ := samplePose 1 2 3 4 5 6, timestamp_ := 5 }

/-- Another version of identity 0 at timestamp 5, with a different origin. -/
def sampleFrameMoved : ReferenceFrameVersion :=
  { ident_ := 0, origin_ := samplePose 7 7 7 4 5 6, timestamp_ := 5 }

/-! ## Loading several frames -/

namespace ReferenceFrameVersion

/-- `load_tree(kb, begin, end, timestamp)`: the range `[begin, end)` is given
as the list of its elements; `count = std::distance(begin, end)` and the
result is `std::vector<ReferenceFrame>(count, default_frame())`. -/
def load_tree4 (S : Statics) (_kb : KnowledgeBase) (range : List String)
    (_timestamp : Nat) : List ReferenceFrame :=
  let count := range.length
  List.replicate count S.default_frame

/-- `load_tree(kb, ids, timestamp)`:
`load_tree(kb, ids.cbegin(), ids.cend(), timestamp)`. -/
def load_tree3 (S : Statics) (kb : KnowledgeBase) (ids : List String)
    (timestamp : Nat) : List ReferenceFrame :=
  load_tree4 S kb ids timestamp

/-- `load_as(kb, key)`: `{ return default_frame(); }`. -/
def load_as (S : Statics) (_kb : KnowledgeBase) (_key : String) : ReferenceFrame :=
  S.default_frame

end ReferenceFrameVersion

/-- The pose (x, 0, 0, 0, 0, 0) bound to version 0, x given as a bit pattern. -/
def samplePoseX (x : Nat) : Pose := samplePose x 0 0 0 0 0

/-- A version of identity 0 ("world") at timestamp 0 with origin (0,0,0). -/
def sampleFrameAt0 : ReferenceFrameVersion :=
  { ident_ := 0, origin_ := samplePoseX 0, timestamp_ := 0 }

/-- A version of identity 0 ("world") at timestamp 10 with origin (10,0,0);
`0x4024000000000000` is the bit pattern of 10.0. -/
def sampleFrameAt10 : ReferenceFrameVersion :=
  { ident_ := 0, origin_ := samplePoseX 0x4024000000000000, timestamp_ := 10 }

/-- A knowledge base without any record. -/
def emptyKnowledgeBase : KnowledgeBase := { records := [] }

/-! ## Comparisons of doubles -/

namespace Double

/-- The literal `0.0` (all bits clear). -/
def zero : Double := { bits := 0 }

/-- A NaN: the eleven exponent bits are all set and the fraction is not 0. -/
def isNaN (d : Double) : Bool :=
  (d.bits / 2 ^ 52) % 2 ^ 11 == 2047 && d.bits % 2 ^ 52 != 0

/-- A zero of either sign. -/
def isZero (d : Double) : Bool := d.bits == 0 || d.bits == 2 ^ 63

/-- The C++ comparison `a == b` of two doubles: never true for a NaN, true
for two zeros of any sign, otherwise equality of the bit patterns. -/
def eq (a b : Double) : Bool :=
  !a.isNaN && !b.isNaN && (a.bits == b.bits || (a.isZero && b.isZero))

/-- Modelled from the spec: the constant `INVAL_COORD` is defined outside the
sources and is taken as a parameter. Section 3: a component holds the
"unset" sentinel, a distinct bit pattern (e.g. NaN), so a value is the
sentinel when it has the sentinel's bit pattern; unlike the comparison `==`
this also recognises a sentinel that is a NaN. -/
def is_inval_coord (d INVAL_COORD : Double) : Bool := d.bits == INVAL_COORD.bits

end Double

/-! ## Pose vectors -/

/-- The exception `std::range_error` thrown by `get` and `set`. -/
inductive RangeError where
  | range_error
  deriving DecidableEq, Repr

namespace PoseVector

/-- Modelled from the spec: the body of `PoseVector(const LocationVector &)`
is in `Pose.inl`, which is not among the sources. Its declaration in `Pose.h`
documents it: the location is taken from `loc`, the orientation info is all
zeros. -/
def ofLocationVector (loc : LocationVector) : PoseVector :=
  { x := loc.x, y := loc.y, z := loc.z,
    rx := Double.zero, ry := Double.zero, rz := Double.zero }

/-- Modelled from the spec: the body of
`PoseVector(const OrientationVector &)` is in `Pose.inl`, which is not among
the sources. Its declaration in `Pose.h` documents it: the orientation is
taken from `rot`, the location info is all zeros. -/
def ofOrientationVector (rot : OrientationVector) : PoseVector :=
  { x := Double.zero, y := Double.zero, z := Double.zero,
    rx := rot.rx, ry := rot.ry, rz := rot.rz }

/-- Modelled from the spec: the body of `PoseVector()` is in `Pose.inl`,
which is not among the sources. Its declaration in `Pose.h` documents it:
all values are `INVAL_COORD`, a constant defined outside the sources and
taken as a parameter. -/
def mk0 (INVAL_COORD : Double) : PoseVector :=
  { x := INVAL_COORD, y := INVAL_COORD, z := INVAL_COORD,
    rx := INVAL_COORD, ry := INVAL_COORD, rz := INVAL_COORD }

/-- Modelled from the spec: the body of `is_set()` is in `Pose.inl`, which is
not among the sources. Its declaration in `Pose.h` documents it: tests if
this Pose is invalid, i.e., any values are `INVAL_COORD`; returns true if at
least one value is `INVAL_COORD`. Section 4.4: a component-wise sentinel
check. -/
def is_set (INVAL_COORD : Double) (v : PoseVector) : Bool :=
  v.x.is_inval_coord INVAL_COORD || v.y.is_inval_coord INVAL_COORD ||
  v.z.is_inval_coord INVAL_COORD || v.rx.is_inval_coord INVAL_COORD ||
  v.ry.is_inval_coord INVAL_COORD || v.rz.is_inval_coord INVAL_COORD

/-- Modelled from the spec: the body of `is_location_set()` is in `Pose.inl`,
which is not among the sources. Section 4.4 (a component-wise sentinel
check) and its declaration in `Pose.h` (tests if the location is set
(valid); true if the location has been set to something valid): no location
value is `INVAL_COORD`. -/
def is_location_set (INVAL_COORD : Double) (v : PoseVector) : Bool :=
  !v.x.is_inval_coord INVAL_COORD && !v.y.is_inval_coord INVAL_COORD &&
  !v.z.is_inval_coord INVAL_COORD

/-- Modelled from the spec: the body of `is_orientation_set()` is in
`Pose.inl`, which is not among the sources. Section 4.4 (a component-wise
sentinel check) and its declaration in `Pose.h` (true if the orientation has
been set to something valid): no orientation value is `INVAL_COORD`. -/
def is_orientation_set (INVAL_COORD : Double) (v : PoseVector) : Bool :=
  !v.rx.is_inval_coord INVAL_COORD && !v.ry.is_inval_coord INVAL_COORD &&
  !v.rz.is_inval_coord INVAL_COORD

/-- Modelled from the spec: the body of `is_location_zero()` is in
`Pose.inl`, which is not among the sources. Its declaration in `Pose.h`
documents it: true if all location information is zero. -/
def is_location_zero (v : PoseVector) : Bool :=
  v.x.eq Double.zero && v.y.eq Double.zero && v.z.eq Double.zero

/-- Modelled from the spec: the body of `is_orientation_zero()` is in
`Pose.inl`, which is not among the sources. Its declaration in `Pose.h`
documents it: true if all orientation information is zero. -/
def is_orientation_zero (v : PoseVector) : Bool :=
  v.rx.eq Double.zero && v.ry.eq Double.zero && v.rz.eq Double.zero

/-- Modelled from the spec: the body of `is_zero()` is in `Pose.inl`, which
is not among the sources. Its declaration in `Pose.h` documents it: true if
all pose information is zero. -/
def is_zero (v : PoseVector) : Bool :=
  v.x.eq Double.zero && v.y.eq Double.zero && v.z.eq Double.zero &&
  v.rx.eq Double.zero && v.ry.eq Double.zero && v.rz.eq Double.zero

/-- Modelled from the spec: the body of `size()` is in `Pose.inl`, which is
not among the sources. Its declaration in `Pose.h` documents it: returns 6. -/
def size (_v : PoseVector) : Int := 6

/-- Modelled from the spec: the body of `get(int i)` is in `Pose.inl`, which
is not among the sources. Section 4.4: index 0..N-1 in the fixed order x, y,
z, rx, ry, rz; an out-of-range index fails with a range error. -/
def get (v : PoseVector) (i : Int) : Except RangeError Double :=
  if i = 0 then .ok v.x
  else if i = 1 then .ok v.y
  else if i = 2 then .ok v.z
  else if i = 3 then .ok v.rx
  else if i = 4 then .ok v.ry
  else if i = 5 then .ok v.rz
  else .error .range_error

/-- Modelled from the spec: the body of `set(int i, double val)` is in
`Pose.inl`, which is not among the sources. Section 4.4 and its declaration
in `Pose.h`: sets the i-th coordinate in the order x, y, z, rx, ry, rz and
returns the new value; an out-of-range index fails with a range error. The
result pairs the vector after the call with the returned value. -/
def set (v : PoseVector) (i : Int) (val : Double) : Except RangeError (PoseVector × Double) :=
  if i = 0 then .ok ({ v with x := val }, val)
  else if i = 1 then .ok ({ v with y := val }, val)
  else if i = 2 then .ok ({ v with z := val }, val)
  else if i = 3 then .ok ({ v with rx := val }, val)
  else if i = 4 then .ok ({ v with ry := val }, val)
  else if i = 5 then .ok ({ v with rz := val }, val)
  else .error .range_error

end PoseVector

namespace Pose

end Pose

/-- The bit pattern of `DBL_MAX`, the largest finite double. -/
def sampleInval : Double := { bits := 0x7FEFFFFFFFFFFFFF }

/-- The bit pattern of a quiet NaN. -/
def sampleInvalNaN : Double := { bits := 0x7FF8000000000000 }

/-- The double 1.0. -/
def sampleOne : Double := { bits := 0x3FF0000000000000 }

/-- The double 2.0. -/
def sampleTwo : Double := { bits := 0x4000000000000000 }

/-- The double 3.0. -/
def sampleThree : Double := { bits := 0x4008000000000000 }

/-- The exception classes `unrelated_frames` and `undefined_transform` with
their public members. -/
inductive TransformError where
  | unrelated_frames (from_frame to_frame : ReferenceFrame)
  | undefined_transform (parent_frame child_frame : TypePtr)
      (is_child_to_parent unsupported_angular : Bool)
  deriving DecidableEq, Repr

/-- Modelled from the spec: the walk of `find_common_frame`, whose body is
not among the sources. Section 4.1: follow `origin_frame()` from a frame,
recording each visited handle with its identity, until a root (a frame whose
`origin_frame()` returns itself, by `operator==`) is reached; the walk visits at most
`max_depth` frames and fails when that ceiling or an invalid handle is hit. -/
def ancestor_chain (h : Heap) : Nat → ReferenceFrame → Option (List (ReferenceFrame × Nat))
  | 0, _ => none
  | max_depth + 1, r =>
    match h.version? r with
    | none => none
    | some v =>
      if ReferenceFrameVersion.operator_eq v.origin_frame r then some [(r, v.ident_)]
      else (ancestor_chain h max_depth v.origin_frame).map fun c => (r, v.ident_) :: c

/-- The handles of a chain from its first frame up to and including the
first frame with identity `i`, when there is one. -/
def path_to_ident (i : Nat) : List (ReferenceFrame × Nat) → Option (List ReferenceFrame)
  | [] => none
  | (r, j) :: rest =>
    if j = i then some [r] else (path_to_ident i rest).map fun p => r :: p

/-- Modelled from the spec: section 4.1, the scan for the first identity
common to both chains, from each frame's own position outward. The result is
the common ancestor, the from-path up to it and the to-path up to it. -/
def scan_common (ct : List (ReferenceFrame × Nat)) :
    List (ReferenceFrame × Nat) →
      Option (ReferenceFrame × List ReferenceFrame × List ReferenceFrame)
  | [] => none
  | (r, i) :: rest =>
    match path_to_ident i ct with
    | some pt => some (r, [r], pt)
    | none => (scan_common ct rest).map fun res => (res.1, r :: res.2.1, res.2.2)

/-- Modelled from the spec: `find_common_frame` is declared in
`ReferenceFrame.h` and its body is not among the sources. Section 4.1:
`find_common_frame(from, to) -> (common_ancestor, path_from, path_to)`,
failing with the relationship error (section 7, carrying both input frames)
when the chains share no identity or a walk exceeds the depth ceiling. -/
def find_common_frame (h : Heap) (max_depth : Nat) (from_frame to_frame : ReferenceFrame) :
    Except TransformError (ReferenceFrame × List ReferenceFrame × List ReferenceFrame) :=
  match ancestor_chain h max_depth from_frame, ancestor_chain h max_depth to_frame with
  | some cf, some ct =>
    match scan_common ct cf with
    | some res => .ok res
    | none => .error (.unrelated_frames from_frame to_frame)
  | _, _ => .error (.unrelated_frames from_frame to_frame)

/-- Modelled from the spec: section 4.2, two handles are identity-equal when
they refer to versions of the same FrameIdentity, whatever their
timestamps. -/
def identity_equal (h : Heap) (a b : ReferenceFrame) : Bool :=
  match h.version? a, h.version? b with
  | some va, some vb => va.ident_ == vb.ident_
  | _, _ => false

namespace Pose

/-- Modelled from the spec: `transform_to` belongs to `Coordinate`, which is
not among the sources. Section 4.2: when the coordinate's frame and the
target are identity-equal the coordinate is returned with its frame replaced
and no numeric change; otherwise the resolver is asked for the paths, its
error is passed on, and the per-link transforms and the normalisation are
applied. That last, floating-point part is the parameter `along`. -/
def transform_to (h : Heap) (max_depth : Nat)
    (along : Pose → ReferenceFrame → ReferenceFrame → List ReferenceFrame →
      List ReferenceFrame → Except TransformError Pose)
    (coord : Pose) (target_frame : ReferenceFrame) : Except TransformError Pose :=
  if identity_equal h coord.frame target_frame then
    .ok { coord with frame_ := target_frame }
  else
    match find_common_frame h max_depth coord.frame target_frame with
    | .error e => .error e
    | .ok res => along coord target_frame res.1 res.2.1 res.2.2

/-- Modelled from the spec: the body of
`Pose(const ReferenceFrame &new_frame, const Pose &orig)` is in `Pose.inl`,
which is not among the sources. Its declaration in `Pose.h` documents it:
a copy of `orig`, transformed to the new frame. -/
def ofFramePose (h : Heap) (max_depth : Nat)
    (along : Pose → ReferenceFrame → ReferenceFrame → List ReferenceFrame →
      List ReferenceFrame → Except TransformError Pose)
    (new_frame : ReferenceFrame) (orig : Pose) : Except TransformError Pose :=
  orig.transform_to h max_depth along new_frame

end Pose

/-- The handle of the version object at address `a`. -/
def handleAt (a : Nat) : ReferenceFrame := { impl_ := some a }

/-- The pose with all six values zero bound to the version at address `a`. -/
def zeroPoseIn (a : Nat) : Pose :=
  { x := Double.zero, y := Double.zero, z := Double.zero,
    rx := Double.zero, ry := Double.zero, rz := Double.zero, frame_ := handleAt a }

/-- A frame tree: Root (address 0) is its own origin frame, A (address 1) is
a child of Root, B (address 2) and C (address 3) are children of A. -/
def sampleTree : Heap :=
  { idents := [ReferenceFrameIdentity.mk2 { addr := 0 } "Root",
               ReferenceFrameIdentity.mk2 { addr := 0 } "A",
               ReferenceFrameIdentity.mk2 { addr := 0 } "B",
               ReferenceFrameIdentity.mk2 { addr := 0 } "C"],
    versions := [{ ident_ := 0, origin_ := zeroPoseIn 0, timestamp_ := default_timestamp },
                 { ident_ := 1, origin_ := zeroPoseIn 0, timestamp_ := default_timestamp },
                 { ident_ := 2, origin_ := zeroPoseIn 1, timestamp_ := default_timestamp },
                 { ident_ := 3, origin_ := zeroPoseIn 1, timestamp_ := default_timestamp }] }

/-- Two trees without a common frame: a root at address 0 with a child at
address 1, and another root at address 2. -/
def sampleForest : Heap :=
  { idents := [ReferenceFrameIdentity.mk2 { addr := 0 } "Root",
               ReferenceFrameIdentity.mk2 { addr := 0 } "A",
               ReferenceFrameIdentity.mk2 { addr := 0 } "Other"],
    versions := [{ ident_ := 0, origin_ := zeroPoseIn 0, timestamp_ := default_timestamp },
                 { ident_ := 1, origin_ := zeroPoseIn 0, timestamp_ := default_timestamp },
                 { ident_ := 2, origin_ := zeroPoseIn 2, timestamp_ := default_timestamp }] }

/-- A stand-in for the numeric part of the transform engine: it reports that
no transform is defined. -/
def sampleAlong (_coord : Pose) (_target _common : ReferenceFrame)
    (_path_from _path_to : List ReferenceFrame) : Except TransformError Pose :=
  .error (.undefined_transform { addr := 0 } { addr := 0 } true false)

/-! ## Default normalisers -/

/-- `default_normalize_linear(const ReferenceFrameType *, double &, double &,
double &) {}`: the body is empty, no variable is written. -/
def default_normalize_linear (_self : TypePtr) (m : DoubleMem) (_x _y _z : Nat) :
    DoubleMem := m

/-- `default_normalize_angular(const ReferenceFrameType *, double &, double &,
double &) {}`: the body is empty, no variable is written. -/
def default_normalize_angular (_self : TypePtr) (m : DoubleMem) (_rx _ry _rz : Nat) :
    DoubleMem := m

/-- `default_normalize_pose(self, x, y, z, rx, ry, rz)`:
`self->normalize_linear(self, x, y, z); self->normalize_angular(self, rx, ry, rz);`.
The second call runs on the memory the first call left; the result is the
memory after both calls, in which the six variables are read at their
addresses. -/
def default_normalize_pose (S : Statics) (self : TypePtr) (m : DoubleMem)
    (x y z rx ry rz : Nat) : DoubleMem :=
  let m1 := (S.types self).normalize_linear self m x y z
  (S.types self).normalize_angular self m1 rx ry rz

/-- A frame type object whose normalisers are the default ones. -/
def sampleDefaultType : ReferenceFrameType :=
  { name := "Cartesian", normalize_linear := default_normalize_linear,
    normalize_angular := default_normalize_angular }

/-- Statics whose frame types all use the default normalisers. -/
def sampleDefaultStatics : Statics :=
  { Cartesian := { addr := 0 }, types := fun _ => sampleDefaultType,
    default_frame := { impl_ := some 0 } }

/-- An angular normaliser that assigns the value of `ry` to `rx`; it reads
and writes only the variables passed to it. -/
def sampleCopyAngular (_self : TypePtr) (m : DoubleMem) (rx ry _rz : Nat) : DoubleMem :=
  m.write rx (m ry)

/-- A frame type object with the default linear normaliser and
`sampleCopyAngular`. -/
def sampleCopyType : ReferenceFrameType :=
  { name := "Copy", normalize_linear := default_normalize_linear,
    normalize_angular := sampleCopyAngular }

/-- Statics whose frame types are all `sampleCopyType`. -/
def sampleCopyStatics : Statics :=
  { Cartesian := { addr := 0 }, types := fun _ => sampleCopyType,
    default_frame := { impl_ := some 0 } }

/-- A linear normaliser that assigns to `x` the value of the variable at
address 3, a variable with static storage it was not passed. -/
def sampleGlobalLinear (_self : TypePtr) (m : DoubleMem) (x _y _z : Nat) : DoubleMem :=
  m.write x (m 3)

/-- A frame type object with `sampleGlobalLinear` and the default angular
normaliser. -/
def sampleGlobalType : ReferenceFrameType :=
  { name := "Global", normalize_linear := sampleGlobalLinear,
    normalize_angular := default_normalize_angular }

/-- Statics whose frame types are all `sampleGlobalType`. -/
def sampleGlobalStatics : Statics :=
  { Cartesian := { addr := 0 }, types := fun _ => sampleGlobalType,
    default_frame := { impl_ := some 0 } }

/-- A memory in which the variable at address 3 holds 2.0 and every other
variable holds 1.0. -/
def sampleMemory : DoubleMem := fun p => if p = 3 then sampleTwo else sampleOne

/-- A memory in which the variable at address 3 holds 3.0 and every other
variable holds 1.0. -/
def sampleMemoryOther : DoubleMem := fun p => if p = 3 then sampleThree else sampleOne

/-- The position (1, 2, 3) bound to the version at address 3. -/
def samplePositionElsewhere : Position :=
  { x := sampleOne, y := sampleTwo, z := sampleThree, frame_ := handleAt 3 }

/-! ## Store lemmas -/

theorem Heap.version?_make_shared_version (h : Heap) (v : ReferenceFrameVersion) :
    (h.make_shared_version v).1.version? (h.make_shared_version v).2 = some v := by
  simp [Heap.make_shared_version, Heap.version?]

theorem Heap.version?_preserved (h : Heap) (v w : ReferenceFrameVersion)
    (r : ReferenceFrame) (hr : h.version? r = some w) :
    (h.make_shared_version v).1.version? r = some w := by
  cases r with
  | mk impl =>
    cases impl with
    | none => simp [Heap.version?] at hr
    | some a =>
      simp only [Heap.version?] at hr
      simp only [Heap.make_shared_version, Heap.version?]
      have hlt : a < h.versions.length := by
        rcases List.getElem?_eq_some.mp hr with ⟨hlt, _⟩
        exact hlt
      rw [List.getElem?_append_left hlt]
      exact hr


theorem Heap.idents_make_shared_version (h : Heap) (v : ReferenceFrameVersion) :
    (h.make_shared_version v).1.idents = h.idents := rfl

/-! ## Functional updates -/

/-- C1: for every frame version f, pose p and timestamp t, the handle
returned by `f.pose(p, t)` refers to a version with f's identity pointer
(hence the same type() and id()), origin p and timestamp t, and every
version object that existed before the call, f included, is still what it
was; no identity object is added or changed. -/
theorem C1_pose_returns_updated_copy (h : Heap) (f : ReferenceFrameVersion)
    (p : Pose) (t : Nat) :
    ∃ g, (f.pose2 h p t).1.version? (f.pose2 h p t).2 = some g ∧
      g.ident_ = f.ident_ ∧
      g.type (f.pose2 h p t).1 = f.type h ∧
      g.id (f.pose2 h p t).1 = f.id h ∧
      g.origin = p ∧ g.timestamp0 = t ∧
      (∀ r v, h.version? r = some v → (f.pose2 h p t).1.version? r = some v) ∧
      (f.pose2 h p t).1.idents = h.idents := by
  refine ⟨ReferenceFrameVersion.ofIdentOrigin f.ident_ p t, ?_, rfl, rfl, rfl, rfl, rfl, ?_, rfl⟩
  · exact Heap.version?_make_shared_version h _
  · intro r v hr
    exact Heap.version?_preserved h _ v r hr

theorem ReferenceFrameVersion.accessors_of_same_ident (S : Statics) (h k : Heap)
    (f g : ReferenceFrameVersion) (hi : g.ident_ = f.ident_) (hk : k.idents = h.idents) :
    g.type k = f.type h ∧ g.id k = f.id h ∧ g.name S k = f.name S h := by
  simp [ReferenceFrameVersion.type, ReferenceFrameVersion.id, ReferenceFrameVersion.name,
    ReferenceFrameVersion.ident, Heap.ident?, hi, hk]

theorem Update.apply_keeps_ident (h : Heap) (f : ReferenceFrameVersion) (u : Update) :
    ∃ g, (u.apply h f).1.version? (u.apply h f).2 = some g ∧
      g.ident_ = f.ident_ ∧ (u.apply h f).1.idents = h.idents := by
  cases u <;> exact ⟨_, Heap.version?_make_shared_version h _, rfl, rfl⟩

theorem apply_updates_keeps_ident (us : List Update) :
    ∀ (h : Heap) (f : ReferenceFrameVersion),
      ∃ k g, apply_updates h f us = some (k, g) ∧
        g.ident_ = f.ident_ ∧ k.idents = h.idents := by
  induction us with
  | nil => intro h f; exact ⟨h, f, rfl, rfl, rfl⟩
  | cons u us ih =>
    intro h f
    obtain ⟨g, hg, hgi, hgh⟩ := Update.apply_keeps_ident h f u
    obtain ⟨k, g2, hk, hki, hkh⟩ := ih (u.apply h f).1 g
    refine ⟨k, g2, ?_, hki.trans hgi, hkh.trans hgh⟩
    simp only [apply_updates, hg]
    exact hk

/-- C2: for every frame version f and every finite sequence of functional
updates (pose, move, orient in their one- and two-argument forms, and
timestamp) applied starting from f, the sequence runs to the end and the
resulting frame has f's identity pointer, with the same type(), id() and
name() as f; the identity objects themselves are untouched. -/
theorem C2_updates_keep_identity (S : Statics) (h : Heap) (f : ReferenceFrameVersion)
    (us : List Update) :
    ∃ k g, apply_updates h f us = some (k, g) ∧
      g.ident_ = f.ident_ ∧ k.idents = h.idents ∧
      g.type k = f.type h ∧ g.id k = f.id h ∧ g.name S k = f.name S h := by
  obtain ⟨k, g, hk, hi, hh⟩ := apply_updates_keeps_ident us h f
  obtain ⟨h1, h2, h3⟩ := ReferenceFrameVersion.accessors_of_same_ident S h k f g hi hh
  exact ⟨k, g, hk, hi, hh, h1, h2, h3⟩

/-- C3: for every frame version f and timestamp t, the handle returned by
`f.timestamp(t)` refers to a version whose timestamp() is t and whose
identity pointer and origin() (all six values and the frame the origin is
bound to) are those of f. -/
theorem C3_timestamp_clones (h : Heap) (f : ReferenceFrameVersion) (t : Nat) :
    ∃ g, (f.timestamp1 h t).1.version? (f.timestamp1 h t).2 = some g ∧
      g.timestamp0 = t ∧ g.ident_ = f.ident_ ∧ g.origin = f.origin ∧
      g.origin.x = f.origin.x ∧ g.origin.y = f.origin.y ∧ g.origin.z = f.origin.z ∧
      g.origin.rx = f.origin.rx ∧ g.origin.ry = f.origin.ry ∧
      g.origin.rz = f.origin.rz ∧ g.origin.frame = f.origin.frame ∧
      (f.timestamp1 h t).1.idents = h.idents :=
  ⟨ReferenceFrameVersion.ofIdentOrigin f.ident_ f.origin_ t,
    Heap.version?_make_shared_version h _,
    rfl, rfl, rfl, rfl, rfl, rfl, rfl, rfl, rfl, rfl, rfl⟩

/-- C4: for every frame version f, position q and timestamp t, the handle
returned by `f.move(q, t)` refers to a version with f's identity pointer
and timestamp t whose origin has the location values of q and the
orientation values of f's origin. -/
theorem C4_move_keeps_orientation (h : Heap) (f : ReferenceFrameVersion)
    (q : Position) (t : Nat) :
    ∃ g, (f.move2 h q t).1.version? (f.move2 h q t).2 = some g ∧
      g.ident_ = f.ident_ ∧ g.timestamp0 = t ∧
      g.origin.x = q.x ∧ g.origin.y = q.y ∧ g.origin.z = q.z ∧
      g.origin.rx = f.origin.rx ∧ g.origin.ry = f.origin.ry ∧
      g.origin.rz = f.origin.rz :=
  ⟨_, Heap.version?_make_shared_version h _, rfl, rfl, rfl, rfl, rfl, rfl, rfl, rfl⟩

/-- C5: for every frame version f, orientation o and timestamp t, the handle
returned by `f.orient(o, t)` refers to a version with f's identity pointer
and timestamp t whose origin has the orientation values of o, the location
values of f's origin, and is bound to the frame f's origin is bound to,
whatever frame o is bound to. -/
theorem C5_orient_keeps_location_and_parent (h : Heap) (f : ReferenceFrameVersion)
    (o : Orientation) (t : Nat) :
    ∃ g, (f.orient2 h o t).1.version? (f.orient2 h o t).2 = some g ∧
      g.ident_ = f.ident_ ∧ g.timestamp0 = t ∧
      g.origin.rx = o.rx ∧ g.origin.ry = o.ry ∧ g.origin.rz = o.rz ∧
      g.origin.x = f.origin.x ∧ g.origin.y = f.origin.y ∧ g.origin.z = f.origin.z ∧
      g.origin.frame = f.origin.frame ∧ g.origin_frame = f.origin_frame :=
  ⟨_, Heap.version?_make_shared_version h _,
    rfl, rfl, rfl, rfl, rfl, rfl, rfl, rfl, rfl, rfl⟩

/-- C6: the one-argument updates keep the timestamp: `f.pose(p)` is
`f.pose(p, f.timestamp())`, `f.move(q)` is `f.move(q, f.timestamp())` and
`f.orient(o)` is `f.orient(o, f.timestamp())`: the same store and the same
handle result, hence the same identity, origin and timestamp. -/
theorem C6_one_argument_updates (h : Heap) (f : ReferenceFrameVersion)
    (p : Pose) (q : Position) (o : Orientation) :
    f.pose1 h p = f.pose2 h p f.timestamp0 ∧
    f.move1 h q = f.move2 h q f.timestamp0 ∧
    f.orient1 h o = f.orient2 h o f.timestamp0 ∧
    (∃ g, (f.pose1 h p).1.version? (f.pose1 h p).2 = some g ∧
      g.ident_ = f.ident_ ∧ g.origin = p ∧ g.timestamp0 = f.timestamp0) ∧
    (∃ g, (f.move1 h q).1.version? (f.move1 h q).2 = some g ∧
      g.ident_ = f.ident_ ∧ g.timestamp0 = f.timestamp0) ∧
    (∃ g, (f.orient1 h o).1.version? (f.orient1 h o).2 = some g ∧
      g.ident_ = f.ident_ ∧ g.timestamp0 = f.timestamp0) :=
  ⟨rfl, rfl, rfl,
    ⟨_, Heap.version?_make_shared_version h _, rfl, rfl, rfl⟩,
    ⟨_, Heap.version?_make_shared_version h _, rfl, rfl⟩,
    ⟨_, Heap.version?_make_shared_version h _, rfl, rfl⟩⟩

/-! ## Timestamps -/

theorem default_timestamp_eq : default_timestamp = 2 ^ 64 - 1 := by
  decide

/-- C7: a frame version built by any of the five constructors without a
timestamp argument has timestamp 2^64 - 1, and every 64-bit timestamp t is
at most that value. -/
theorem C7_default_timestamp_is_greatest (S : Statics) (h : Heap) (type : TypePtr)
    (name : String) (ident : Nat) (origin : Pose) (t : Nat) (ht : t < 2 ^ 64) :
    (ReferenceFrameVersion.ofOrigin_default S h origin).2.timestamp0 = 2 ^ 64 - 1 ∧
    (ReferenceFrameVersion.ofTypeOrigin_default h type origin).2.timestamp0 = 2 ^ 64 - 1 ∧
    (ReferenceFrameVersion.ofNameOrigin_default S h name origin).2.timestamp0 = 2 ^ 64 - 1 ∧
    (ReferenceFrameVersion.ofTypeNameOrigin_default h type name origin).2.timestamp0
      = 2 ^ 64 - 1 ∧
    (ReferenceFrameVersion.ofIdentOrigin_default ident origin).timestamp0 = 2 ^ 64 - 1 ∧
    t ≤ (ReferenceFrameVersion.ofOrigin_default S h origin).2.timestamp0 := by
  have hd := default_timestamp_eq
  refine ⟨hd, hd, hd, hd, hd, ?_⟩
  show t ≤ default_timestamp
  omega

theorem C7_default_timestamp_is_greatest_witness :
    (5 : Nat) < 2 ^ 64 ∧
    (ReferenceFrameVersion.ofOrigin_default sampleStatics sampleHeap
      (samplePose 1 2 3 4 5 6)).2.timestamp0 = 2 ^ 64 - 1 ∧
    5 ≤ (ReferenceFrameVersion.ofOrigin_default sampleStatics sampleHeap
      (samplePose 1 2 3 4 5 6)).2.timestamp0 :=
  ⟨by decide,
    (C7_default_timestamp_is_greatest sampleStatics sampleHeap ⟨0⟩ "a" 0
      (samplePose 1 2 3 4 5 6) 5 (by decide)).1,
    (C7_default_timestamp_is_greatest sampleStatics sampleHeap ⟨0⟩ "a" 0
      (samplePose 1 2 3 4 5 6) 5 (by decide)).2.2.2.2.2⟩

/-! ## Generated ids -/

theorem Heap.ident?_make_shared_ident (h : Heap) (i : ReferenceFrameIdentity) :
    (h.make_shared_ident i).1.ident? (h.make_shared_ident i).2 = some i := by
  simp [Heap.make_shared_ident, Heap.ident?]

theorem ReferenceFrameVersion.id_ofOrigin_default (S : Statics) (h : Heap) (origin : Pose) :
    (ofOrigin_default S h origin).2.id (ofOrigin_default S h origin).1 = some "DEFAULT" := by
  simp [ofOrigin_default, ofOrigin, ReferenceFrameVersion.id, Heap.make_shared_ident,
    Heap.ident?, ReferenceFrameIdentity.mk1, ReferenceFrameIdentity.id]

theorem ReferenceFrameVersion.id_ofTypeOrigin_default (h : Heap) (type : TypePtr)
    (origin : Pose) :
    (ofTypeOrigin_default h type origin).2.id (ofTypeOrigin_default h type origin).1
      = some "DEFAULT" := by
  simp [ofTypeOrigin_default, ofTypeOrigin, ReferenceFrameVersion.id, Heap.make_shared_ident,
    Heap.ident?, ReferenceFrameIdentity.mk1, ReferenceFrameIdentity.id]

/-- C8: two frame versions constructed one after the other without an id
argument (the first from an origin only, the second from a type and an
origin) own two distinct identity objects, yet id() of both is the string
"DEFAULT": the generated ids are not unique. -/
theorem C8_generated_ids_coincide :
    (ReferenceFrameVersion.ofOrigin_default sampleStatics sampleHeap
        (samplePose 1 2 3 4 5 6)).2.ident_
      ≠ (ReferenceFrameVersion.ofTypeOrigin_default
          (ReferenceFrameVersion.ofOrigin_default sampleStatics sampleHeap
            (samplePose 1 2 3 4 5 6)).1 ⟨1⟩ (samplePose 6 5 4 3 2 1)).2.ident_ ∧
    (ReferenceFrameVersion.ofOrigin_default sampleStatics sampleHeap
        (samplePose 1 2 3 4 5 6)).2.id
      (ReferenceFrameVersion.ofTypeOrigin_default
          (ReferenceFrameVersion.ofOrigin_default sampleStatics sampleHeap
            (samplePose 1 2 3 4 5 6)).1 ⟨1⟩ (samplePose 6 5 4 3 2 1)).1 = some "DEFAULT" ∧
    (ReferenceFrameVersion.ofTypeOrigin_default
          (ReferenceFrameVersion.ofOrigin_default sampleStatics sampleHeap
            (samplePose 1 2 3 4 5 6)).1 ⟨1⟩ (samplePose 6 5 4 3 2 1)).2.id
      (ReferenceFrameVersion.ofTypeOrigin_default
          (ReferenceFrameVersion.ofOrigin_default sampleStatics sampleHeap
            (samplePose 1 2 3 4 5 6)).1 ⟨1⟩ (samplePose 6 5 4 3 2 1)).1 = some "DEFAULT" := by
  decide

/-! ## Equality of frames -/

theorem ReferenceFrameVersion.operator_eq_iff (a b : ReferenceFrame) :
    ReferenceFrameVersion.operator_eq a b = true ↔
      ∃ p, a.impl_ = some p ∧ b.impl_ = some p := by
  cases a with
  | mk ia =>
    cases b with
    | mk ib =>
      cases ia with
      | none => simp [ReferenceFrameVersion.operator_eq]
      | some x =>
        cases ib with
        | none => simp [ReferenceFrameVersion.operator_eq]
        | some y =>
          simp only [ReferenceFrameVersion.operator_eq, beq_iff_eq, Option.some.injEq]
          constructor
          · intro e
            exact ⟨x, rfl, e.symm⟩
          · rintro ⟨p, hx, hy⟩
            rw [hx, hy]

/-- C9 (as stated, refuted): two calls of `timestamp(5)` on the sample frame
return handles to two version objects with the same identity pointer and the
same timestamp 5, which is not the "latest" value; `operator==` on the two
is false, since they are not the same object. -/
theorem C9_clones_compare_unequal :
    (5 : Nat) ≠ default_timestamp ∧
    (sampleFrame.timestamp1 (sampleFrame.timestamp1 sampleHeap 5).1 5).1.version?
        (sampleFrame.timestamp1 sampleHeap 5).2
      = some { ident_ := 0, origin_ := samplePose 1 2 3 4 5 6, timestamp_ := 5 } ∧
    (sampleFrame.timestamp1 (sampleFrame.timestamp1 sampleHeap 5).1 5).1.version?
        (sampleFrame.timestamp1 (sampleFrame.timestamp1 sampleHeap 5).1 5).2
      = some { ident_ := 0, origin_ := samplePose 1 2 3 4 5 6, timestamp_ := 5 } ∧
    ReferenceFrameVersion.operator_eq (sampleFrame.timestamp1 sampleHeap 5).2
      (sampleFrame.timestamp1 (sampleFrame.timestamp1 sampleHeap 5).1 5).2 = false ∧
    ReferenceFrameVersion.operator_ne (sampleFrame.timestamp1 sampleHeap 5).2
      (sampleFrame.timestamp1 (sampleFrame.timestamp1 sampleHeap 5).1 5).2 = true := by
  decide

/-- C9 (amended): two frame handles are equal if and only if they hold the
address of the same version object, and `!=` is the negation; equal handles
therefore refer to one identity pointer and one timestamp, but not
conversely: for every frame f and timestamp t, two successive clones
`f.timestamp(t)` are distinct version objects with the identity pointer of f
and timestamp t that do not compare equal, each of them compares equal to
itself, and `f.timestamp(t)` does not compare equal to
`f.timestamp(latest)`. -/
theorem C9_handles_equal_iff_same_object (h : Heap) (f : ReferenceFrameVersion) (t : Nat) :
    (∀ a b : ReferenceFrame, ReferenceFrameVersion.operator_eq a b = true ↔
      ∃ p, a.impl_ = some p ∧ b.impl_ = some p) ∧
    (∀ a b : ReferenceFrame, ReferenceFrameVersion.operator_ne a b = true ↔
      ¬ ∃ p, a.impl_ = some p ∧ b.impl_ = some p) ∧
    (∀ (k : Heap) (a b : ReferenceFrame) (va vb : ReferenceFrameVersion),
      ReferenceFrameVersion.operator_eq a b = true →
      k.version? a = some va → k.version? b = some vb →
      va.ident_ = vb.ident_ ∧ va.timestamp_ = vb.timestamp_) ∧
    (f.timestamp1 h t).2 ≠ (f.timestamp1 (f.timestamp1 h t).1 t).2 ∧
    (∃ va vb,
      (f.timestamp1 (f.timestamp1 h t).1 t).1.version? (f.timestamp1 h t).2 = some va ∧
      (f.timestamp1 (f.timestamp1 h t).1 t).1.version?
        (f.timestamp1 (f.timestamp1 h t).1 t).2 = some vb ∧
      va.ident_ = f.ident_ ∧ vb.ident_ = f.ident_ ∧
      va.timestamp_ = t ∧ vb.timestamp_ = t) ∧
    ReferenceFrameVersion.operator_eq (f.timestamp1 h t).2
      (f.timestamp1 (f.timestamp1 h t).1 t).2 = false ∧
    ReferenceFrameVersion.operator_eq (f.timestamp1 h t).2 (f.timestamp1 h t).2 = true ∧
    ReferenceFrameVersion.operator_eq (f.timestamp1 (f.timestamp1 h t).1 t).2
      (f.timestamp1 (f.timestamp1 h t).1 t).2 = true ∧
    ReferenceFrameVersion.operator_eq (f.timestamp1 h t).2
      (f.timestamp1 (f.timestamp1 h t).1 default_timestamp).2 = false := by
  have e1 : (f.timestamp1 h t).1.version? (f.timestamp1 h t).2
      = some (ReferenceFrameVersion.ofIdentOrigin f.ident_ f.origin_ t) :=
    Heap.version?_make_shared_version h _
  refine ⟨ReferenceFrameVersion.operator_eq_iff, ?_, ?_, ?_, ?_, ?_, ?_, ?_, ?_⟩
  · intro a b
    rw [← ReferenceFrameVersion.operator_eq_iff a b]
    simp [ReferenceFrameVersion.operator_ne]
  · intro k a b va vb hab ha hb
    obtain ⟨p, hap, hbp⟩ := (ReferenceFrameVersion.operator_eq_iff a b).1 hab
    have e : a = b := by
      cases a
      cases b
      simp only at hap hbp
      rw [hap, hbp]
    rw [e, hb] at ha
    cases ha
    exact ⟨rfl, rfl⟩
  · simp [ReferenceFrameVersion.timestamp1, ReferenceFrame.make, Heap.make_shared_version]
  · exact ⟨_, _, Heap.version?_preserved _ _ _ _ e1, Heap.version?_make_shared_version _ _,
      rfl, rfl, rfl, rfl⟩
  · simp [ReferenceFrameVersion.operator_eq, ReferenceFrameVersion.timestamp1,
      ReferenceFrame.make, Heap.make_shared_version]
  · simp [ReferenceFrameVersion.operator_eq, ReferenceFrameVersion.timestamp1,
      ReferenceFrame.make, Heap.make_shared_version]
  · simp [ReferenceFrameVersion.operator_eq, ReferenceFrameVersion.timestamp1,
      ReferenceFrame.make, Heap.make_shared_version]
  · simp [ReferenceFrameVersion.operator_eq, ReferenceFrameVersion.timestamp1,
      ReferenceFrame.make, Heap.make_shared_version]

theorem C9_handles_equal_iff_same_object_witness :
    ReferenceFrameVersion.operator_eq (sampleFrame.timestamp1 sampleHeap 5).2
      (sampleFrame.timestamp1 sampleHeap 5).2 = true ∧
    (sampleFrame.timestamp1 sampleHeap 5).1.version? (sampleFrame.timestamp1 sampleHeap 5).2
      = some sampleFrame ∧
    (sampleFrame.ident_ = sampleFrame.ident_ ∧
      sampleFrame.timestamp_ = sampleFrame.timestamp_) ∧
    ReferenceFrameVersion.operator_eq (sampleFrame.timestamp1 sampleHeap 5).2
      (sampleFrame.timestamp1 (sampleFrame.timestamp1 sampleHeap 5).1 5).2 = false ∧
    ReferenceFrameVersion.operator_eq (sampleFrame.timestamp1 sampleHeap 5).2
      (sampleFrame.timestamp1 (sampleFrame.timestamp1 sampleHeap 5).1 default_timestamp).2
      = false :=
  ⟨(C9_handles_equal_iff_same_object sampleHeap sampleFrame 5).2.2.2.2.2.2.1,
    rfl,
    (C9_handles_equal_iff_same_object sampleHeap sampleFrame 5).2.2.1
      (sampleFrame.timestamp1 sampleHeap 5).1 (sampleFrame.timestamp1 sampleHeap 5).2
      (sampleFrame.timestamp1 sampleHeap 5).2 sampleFrame sampleFrame
      (by decide) rfl rfl,
    (C9_handles_equal_iff_same_object sampleHeap sampleFrame 5).2.2.2.2.2.1,
    (C9_handles_equal_iff_same_object sampleHeap sampleFrame 5).2.2.2.2.2.2.2.2⟩

/-! ## Persistence -/

theorem ReferenceFrameVersion.load_eq_default_frame (S : Statics) (kb : KnowledgeBase)
    (id : String) (timestamp : Nat) :
    ReferenceFrameVersion.load S kb id timestamp = S.default_frame := rfl

/-- C10: saving leaves the knowledge base as it was and loading returns
`default_frame()` whatever was saved: after saving either of two versions
of frame "world" at timestamp 5 that differ in their origin, loading
"world" at timestamp 5 gives the same handle, so the load cannot return
each stored version unchanged. -/
theorem C10_load_ignores_saved_version (S : Statics) (h : Heap) (kb : KnowledgeBase) :
    sampleFrame.save kb = kb ∧
    ReferenceFrameVersion.load S (sampleFrame.save kb) "world" 5 = S.default_frame ∧
    ReferenceFrameVersion.load S (sampleFrame.save kb) "world" 5
      = ReferenceFrameVersion.load S (sampleFrameMoved.save kb) "world" 5 ∧
    ¬ (h.version? (ReferenceFrameVersion.load S (sampleFrame.save kb) "world" 5)
          = some sampleFrame ∧
       h.version? (ReferenceFrameVersion.load S (sampleFrameMoved.save kb) "world" 5)
          = some sampleFrameMoved) := by
  refine ⟨rfl, rfl, rfl, ?_⟩
  rintro ⟨h1, h2⟩
  have h3 : some sampleFrame = some sampleFrameMoved := h1.symm.trans h2
  exact absurd h3 (by decide)

/-- C11: after saving versions of frame "world" at timestamp 0 (origin
(0,0,0)) and at timestamp 10 (origin (10,0,0)), loading "world" at
timestamp 5 returns `default_frame()`, the handle every other load returns
too, and whatever version that handle refers to reports interpolated()
false: no interpolated version is produced. -/
theorem C11_load_never_interpolates (S : Statics) (h : Heap) (kb : KnowledgeBase) :
    ReferenceFrameVersion.load S (sampleFrameAt10.save (sampleFrameAt0.save kb)) "world" 5
      = S.default_frame ∧
    ReferenceFrameVersion.load S (sampleFrameAt10.save (sampleFrameAt0.save kb)) "world" 5
      = ReferenceFrameVersion.load S kb "world" 0 ∧
    ¬ ∃ g, h.version?
        (ReferenceFrameVersion.load S (sampleFrameAt10.save (sampleFrameAt0.save kb)) "world" 5)
          = some g ∧ g.interpolated = true := by
  refine ⟨rfl, rfl, ?_⟩
  rintro ⟨g, _, hg⟩
  simp [ReferenceFrameVersion.interpolated] at hg

/-- C12: loading an id from a knowledge base without any record returns
`default_frame()`, the same handle as a load of a frame that was saved
before: the missing frame is answered with the default frame. -/
theorem C12_load_of_missing_id_returns_default_frame (S : Statics) (t : Nat) :
    ReferenceFrameVersion.load S emptyKnowledgeBase "absent" t = S.default_frame ∧
    ReferenceFrameVersion.load S emptyKnowledgeBase "absent" t
      = ReferenceFrameVersion.load S (sampleFrame.save emptyKnowledgeBase) "world" 5 ∧
    ReferenceFrameVersion.load_as S emptyKnowledgeBase "absent" = S.default_frame :=
  ⟨rfl, rfl, rfl⟩

theorem ReferenceFrameVersion.length_load_tree4 (S : Statics) (kb : KnowledgeBase)
    (range : List String) (t : Nat) :
    (ReferenceFrameVersion.load_tree4 S kb range t).length = range.length := by
  simp [ReferenceFrameVersion.load_tree4]

theorem ReferenceFrameVersion.mem_load_tree4 (S : Statics) (kb : KnowledgeBase)
    (range : List String) (t : Nat) (r : ReferenceFrame)
    (hr : r ∈ ReferenceFrameVersion.load_tree4 S kb range t) : r = S.default_frame := by
  simp only [ReferenceFrameVersion.load_tree4] at hr
  exact List.eq_of_mem_replicate hr

/-- C13: load_tree returns as many frames as ids were given and the
container overload agrees with the iterator overload, but every returned
frame is `default_frame()`: for the ids "a" and "b" the two returned handles
are one and the same, so they cannot refer to a frame with id "a" and to a
frame with id "b". -/
theorem C13_load_tree_ignores_ids (S : Statics) (h : Heap) (kb : KnowledgeBase) (t : Nat) :
    (∀ ids : List String,
      (ReferenceFrameVersion.load_tree3 S kb ids t).length = ids.length ∧
      ReferenceFrameVersion.load_tree3 S kb ids t
        = ReferenceFrameVersion.load_tree4 S kb ids t) ∧
    ReferenceFrameVersion.load_tree3 S kb ["a", "b"] t = [S.default_frame, S.default_frame] ∧
    ¬ ∃ ra rb va vb, ReferenceFrameVersion.load_tree3 S kb ["a", "b"] t = [ra, rb] ∧
        h.version? ra = some va ∧ va.id h = some "a" ∧
        h.version? rb = some vb ∧ vb.id h = some "b" := by
  refine ⟨fun ids => ⟨ReferenceFrameVersion.length_load_tree4 S kb ids t, rfl⟩, rfl, ?_⟩
  rintro ⟨ra, rb, va, vb, hl, ha, hia, hb, hib⟩
  have hl2 : [S.default_frame, S.default_frame] = [ra, rb] := hl
  simp only [List.cons.injEq, and_true] at hl2
  obtain ⟨h1, h2⟩ := hl2
  subst h1
  subst h2
  rw [ha] at hb
  cases hb
  rw [hia] at hib
  exact absurd hib (by decide)

/-- C14: for a knowledge base without any record, the concrete timestamp 5
and the single id "a", load_tree returns a vector of length 1, not an empty
one; in general the length is the number of ids whatever the knowledge base
and the timestamp are. -/
theorem C14_load_tree_never_empty_for_ids (S : Statics) :
    (ReferenceFrameVersion.load_tree4 S emptyKnowledgeBase ["a"] 5).length = 1 ∧
    (ReferenceFrameVersion.load_tree3 S emptyKnowledgeBase ["a"] 5).length = 1 ∧
    ReferenceFrameVersion.load_tree4 S emptyKnowledgeBase ["a"] 5 = [S.default_frame] ∧
    ∀ (kb : KnowledgeBase) (ids : List String) (t : Nat),
      (ReferenceFrameVersion.load_tree4 S kb ids t).length = ids.length :=
  ⟨rfl, rfl, rfl, fun kb ids t => ReferenceFrameVersion.length_load_tree4 S kb ids t⟩

/-! ## Pose vectors -/

theorem PoseVector.get_ok_iff (v : PoseVector) (i : Int) :
    (∃ d, v.get i = .ok d) ↔ (0 ≤ i ∧ i ≤ 5) := by
  unfold PoseVector.get
  split_ifs <;> simp <;> omega

theorem PoseVector.set_ok_iff (v : PoseVector) (i : Int) (val : Double) :
    (∃ r, v.set i val = .ok r) ↔ (0 ≤ i ∧ i ≤ 5) := by
  unfold PoseVector.set
  split_ifs <;> simp <;> omega

theorem PoseVector.get_error_iff (v : PoseVector) (i : Int) :
    v.get i = .error .range_error ↔ ¬ (0 ≤ i ∧ i ≤ 5) := by
  unfold PoseVector.get
  split_ifs <;> simp <;> omega

theorem PoseVector.set_error_iff (v : PoseVector) (i : Int) (val : Double) :
    v.set i val = .error .range_error ↔ ¬ (0 ≤ i ∧ i ≤ 5) := by
  unfold PoseVector.set
  split_ifs <;> simp <;> omega

/-- C18: for every PoseVector v, integer i and value val, get(i) and
set(i, val) succeed exactly when 0 <= i <= size() - 1 = 5 and fail with a
range error for every other index (6 and -1 included); the indices 0..5
address x, y, z, rx, ry, rz in that order, and a successful set(i, val)
stores val in that coordinate and returns val. -/
theorem C18_get_set_index_range (v : PoseVector) (i : Int) (val : Double) :
    v.size - 1 = 5 ∧
    ((∃ d, v.get i = .ok d) ↔ (0 ≤ i ∧ i ≤ v.size - 1)) ∧
    ((∃ r, v.set i val = .ok r) ↔ (0 ≤ i ∧ i ≤ v.size - 1)) ∧
    (v.get i = .error .range_error ↔ ¬ (0 ≤ i ∧ i ≤ v.size - 1)) ∧
    (v.set i val = .error .range_error ↔ ¬ (0 ≤ i ∧ i ≤ v.size - 1)) ∧
    (v.get 0 = .ok v.x ∧ v.get 1 = .ok v.y ∧ v.get 2 = .ok v.z ∧
      v.get 3 = .ok v.rx ∧ v.get 4 = .ok v.ry ∧ v.get 5 = .ok v.rz) ∧
    (v.set 0 val = .ok ({ v with x := val }, val) ∧
      v.set 1 val = .ok ({ v with y := val }, val) ∧
      v.set 2 val = .ok ({ v with z := val }, val) ∧
      v.set 3 val = .ok ({ v with rx := val }, val) ∧
      v.set 4 val = .ok ({ v with ry := val }, val) ∧
      v.set 5 val = .ok ({ v with rz := val }, val)) ∧
    (v.get 6 = .error .range_error ∧ v.get (-1) = .error .range_error ∧
      v.set 6 val = .error .range_error ∧ v.set (-1) val = .error .range_error) := by
  have hs : v.size - 1 = 5 := by simp [PoseVector.size]
  rw [hs]
  exact ⟨rfl, PoseVector.get_ok_iff v i, PoseVector.set_ok_iff v i val,
    PoseVector.get_error_iff v i, PoseVector.set_error_iff v i val,
    ⟨rfl, rfl, rfl, rfl, rfl, rfl⟩, ⟨rfl, rfl, rfl, rfl, rfl, rfl⟩,
    ⟨rfl, rfl, rfl, rfl⟩⟩

theorem Double.zero_eq_zero : Double.zero.eq Double.zero = true := by
  decide

theorem Double.is_inval_coord_self (INVAL_COORD : Double) :
    INVAL_COORD.is_inval_coord INVAL_COORD = true := by
  simp [Double.is_inval_coord]

/-- The default-constructed vector, whose values are all `INVAL_COORD`, has
neither its location nor its orientation set and is reported by `is_set()`,
whatever the sentinel is. -/
theorem PoseVector.mk0_reports_unset (INVAL_COORD : Double) :
    (PoseVector.mk0 INVAL_COORD).is_location_set INVAL_COORD = false ∧
    (PoseVector.mk0 INVAL_COORD).is_orientation_set INVAL_COORD = false ∧
    (PoseVector.mk0 INVAL_COORD).is_set INVAL_COORD = true := by
  simp [PoseVector.mk0, PoseVector.is_location_set, PoseVector.is_orientation_set,
    PoseVector.is_set, Double.is_inval_coord_self]

/-- A vector with one orientation value left at the sentinel has its
location set and its orientation not set. -/
theorem PoseVector.partly_unset_sample :
    PoseVector.is_location_set sampleInval
      { x := sampleOne, y := sampleTwo, z := sampleThree,
        rx := Double.zero, ry := sampleInval, rz := Double.zero } = true ∧
    PoseVector.is_orientation_set sampleInval
      { x := sampleOne, y := sampleTwo, z := sampleThree,
        rx := Double.zero, ry := sampleInval, rz := Double.zero } = false ∧
    PoseVector.is_location_set sampleInval
      { x := sampleOne, y := sampleInval, z := sampleThree,
        rx := Double.zero, ry := Double.zero, rz := Double.zero } = false ∧
    PoseVector.is_orientation_set sampleInvalNaN
      { x := sampleOne, y := sampleTwo, z := sampleThree,
        rx := sampleInvalNaN, ry := Double.zero, rz := Double.zero } = false := by
  decide

/-- Whatever the sentinel and the vector, an orientation that is not set
holds the sentinel, so `is_set()` answers true: "orientation not set" and
"`is_set()` false" never hold together. -/
theorem PoseVector.is_set_of_orientation_unset (INVAL_COORD : Double) (v : PoseVector)
    (h : v.is_orientation_set INVAL_COORD = false) : v.is_set INVAL_COORD = true := by
  simp only [PoseVector.is_orientation_set, PoseVector.is_set] at *
  cases hx : v.rx.is_inval_coord INVAL_COORD <;>
    cases hy : v.ry.is_inval_coord INVAL_COORD <;>
    cases hz : v.rz.is_inval_coord INVAL_COORD <;>
    simp [hx, hy, hz] at h ⊢

/-- C20: for every LocationVector loc the PoseVector constructed from loc
alone has the location values of loc and orientation values all zero, so
is_orientation_zero() is true; for every OrientationVector rot the
PoseVector constructed from rot alone has the orientation values of rot and
is_location_zero() true; and for every PoseVector v, when is_zero() is true
both is_location_zero() and is_orientation_zero() are true. -/
theorem C20_partial_constructors_zero_fill (loc : LocationVector) (rot : OrientationVector)
    (v : PoseVector) :
    ((PoseVector.ofLocationVector loc).x = loc.x ∧
      (PoseVector.ofLocationVector loc).y = loc.y ∧
      (PoseVector.ofLocationVector loc).z = loc.z ∧
      (PoseVector.ofLocationVector loc).rx = Double.zero ∧
      (PoseVector.ofLocationVector loc).ry = Double.zero ∧
      (PoseVector.ofLocationVector loc).rz = Double.zero ∧
      (PoseVector.ofLocationVector loc).is_orientation_zero = true) ∧
    ((PoseVector.ofOrientationVector rot).rx = rot.rx ∧
      (PoseVector.ofOrientationVector rot).ry = rot.ry ∧
      (PoseVector.ofOrientationVector rot).rz = rot.rz ∧
      (PoseVector.ofOrientationVector rot).x = Double.zero ∧
      (PoseVector.ofOrientationVector rot).y = Double.zero ∧
      (PoseVector.ofOrientationVector rot).z = Double.zero ∧
      (PoseVector.ofOrientationVector rot).is_location_zero = true) ∧
    (v.is_zero = true → v.is_location_zero = true ∧ v.is_orientation_zero = true) := by
  refine ⟨⟨rfl, rfl, rfl, rfl, rfl, rfl, ?_⟩, ⟨rfl, rfl, rfl, rfl, rfl, rfl, ?_⟩, ?_⟩
  · simp [PoseVector.is_orientation_zero, PoseVector.ofLocationVector, Double.zero_eq_zero]
  · simp [PoseVector.is_location_zero, PoseVector.ofOrientationVector, Double.zero_eq_zero]
  · intro hv
    simp only [PoseVector.is_zero, Bool.and_eq_true] at hv
    simp only [PoseVector.is_location_zero, PoseVector.is_orientation_zero, Bool.and_eq_true]
    tauto

theorem C20_partial_constructors_zero_fill_witness :
    (PoseVector.ofLocationVector ⟨sampleOne, sampleTwo, sampleThree⟩).is_zero = false ∧
    (PoseVector.ofLocationVector ⟨Double.zero, Double.zero, Double.zero⟩).is_zero = true ∧
    (PoseVector.ofLocationVector ⟨Double.zero, Double.zero, Double.zero⟩).is_location_zero
      = true ∧
    (PoseVector.ofLocationVector ⟨Double.zero, Double.zero, Double.zero⟩).is_orientation_zero
      = true :=
  ⟨by decide, by decide,
    ((C20_partial_constructors_zero_fill ⟨Double.zero, Double.zero, Double.zero⟩
      ⟨Double.zero, Double.zero, Double.zero⟩
      (PoseVector.ofLocationVector ⟨Double.zero, Double.zero, Double.zero⟩)).2.2
        (by decide)).1,
    ((C20_partial_constructors_zero_fill ⟨Double.zero, Double.zero, Double.zero⟩
      ⟨Double.zero, Double.zero, Double.zero⟩
      (PoseVector.ofLocationVector ⟨Double.zero, Double.zero, Double.zero⟩)).2.2
        (by decide)).2⟩

/-! ## Frame tree resolver and transform engine -/

theorem identity_equal_self (h : Heap) (r : ReferenceFrame) (v : ReferenceFrameVersion)
    (hv : h.version? r = some v) : identity_equal h r r = true := by
  simp [identity_equal, hv]

/-- C15: for every pose P bound to a frame F of the store, transforming P
into F, by `transform_to` or by the copy-and-transform constructor
`Pose(F, P)`, succeeds and yields the pose with the six values of P bound to
F, whatever the numeric part of the engine does. -/
theorem C15_transform_to_own_frame (h : Heap) (max_depth : Nat)
    (along : Pose → ReferenceFrame → ReferenceFrame → List ReferenceFrame →
      List ReferenceFrame → Except TransformError Pose)
    (P : Pose) (v : ReferenceFrameVersion) (hv : h.version? P.frame = some v) :
    P.transform_to h max_depth along P.frame = .ok P ∧
    Pose.ofFramePose h max_depth along P.frame P = .ok P ∧
    ∃ Q, P.transform_to h max_depth along P.frame = .ok Q ∧
      Q.x = P.x ∧ Q.y = P.y ∧ Q.z = P.z ∧ Q.rx = P.rx ∧ Q.ry = P.ry ∧ Q.rz = P.rz ∧
      Q.frame = P.frame := by
  have hP : P.transform_to h max_depth along P.frame = .ok P := by
    simp only [Pose.transform_to, identity_equal_self h P.frame v hv, if_true]
    rfl
  exact ⟨hP, hP, P, hP, rfl, rfl, rfl, rfl, rfl, rfl, rfl⟩

theorem C15_transform_to_own_frame_witness :
    sampleTree.version? (zeroPoseIn 2).frame = sampleTree.versions[2]? ∧
    (zeroPoseIn 2).transform_to sampleTree 0 sampleAlong (zeroPoseIn 2).frame
      = .ok (zeroPoseIn 2) :=
  ⟨rfl, (C15_transform_to_own_frame sampleTree 0 sampleAlong (zeroPoseIn 2)
    { ident_ := 2, origin_ := zeroPoseIn 1, timestamp_ := default_timestamp } rfl).1⟩

theorem ReferenceFrameVersion.operator_eq_self (h : Heap) (r : ReferenceFrame)
    (v : ReferenceFrameVersion) (hv : h.version? r = some v) :
    ReferenceFrameVersion.operator_eq r r = true := by
  cases r with
  | mk impl =>
    cases impl with
    | none => simp [Heap.version?] at hv
    | some a => simp [ReferenceFrameVersion.operator_eq]

theorem ReferenceFrameVersion.operator_eq_of_ident_ne (h : Heap) (a b : ReferenceFrame)
    (va vb : ReferenceFrameVersion) (ha : h.version? a = some va)
    (hb : h.version? b = some vb) (hne : va.ident_ ≠ vb.ident_) :
    ReferenceFrameVersion.operator_eq a b = false := by
  have hab : a ≠ b := by
    intro e
    rw [e, hb] at ha
    cases ha
    exact hne rfl
  cases a with
  | mk ia =>
    cases b with
    | mk ib =>
      cases ia with
      | none => simp [ReferenceFrameVersion.operator_eq]
      | some x =>
        cases ib with
        | none => simp [ReferenceFrameVersion.operator_eq]
        | some y =>
          have hxy : x ≠ y := fun e => hab (by rw [e])
          simp [ReferenceFrameVersion.operator_eq, hxy]

theorem ancestor_chain_root (h : Heap) (n : Nat) (r : ReferenceFrame)
    (v : ReferenceFrameVersion) (hv : h.version? r = some v) (ho : v.origin_frame = r) :
    ancestor_chain h (n + 1) r = some [(r, v.ident_)] := by
  simp [ancestor_chain, hv, ho, ReferenceFrameVersion.operator_eq_self h r v hv]

theorem ancestor_chain_child (h : Heap) (n : Nat) (r p : ReferenceFrame)
    (v vp : ReferenceFrameVersion) (c : List (ReferenceFrame × Nat))
    (hv : h.version? r = some v) (ho : v.origin_frame = p)
    (hp : h.version? p = some vp) (hne : vp.ident_ ≠ v.ident_)
    (hc : ancestor_chain h n p = some c) :
    ancestor_chain h (n + 1) r = some ((r, v.ident_) :: c) := by
  simp [ancestor_chain, hv, ho,
    ReferenceFrameVersion.operator_eq_of_ident_ne h p r vp v hp hv hne, hc]

/-- C16: in every store where Root is its own origin frame, A is a child of
Root, B and C are children of A, and the identities involved are distinct,
`find_common_frame(B, C)` with a depth ceiling of at least 3 returns A (not
Root) with the from-path [B, A] and the to-path [C, A]. -/
theorem C16_common_frame_of_siblings (h : Heap) (max_depth : Nat)
    (Root A B C : ReferenceFrame) (vR vA vB vC : ReferenceFrameVersion)
    (hR : h.version? Root = some vR) (hRo : vR.origin_frame = Root)
    (hA : h.version? A = some vA) (hAo : vA.origin_frame = Root)
    (hB : h.version? B = some vB) (hBo : vB.origin_frame = A)
    (hC : h.version? C = some vC) (hCo : vC.origin_frame = A)
    (hRA : vR.ident_ ≠ vA.ident_) (hRB : vR.ident_ ≠ vB.ident_)
    (hAB : vA.ident_ ≠ vB.ident_) (hAC : vA.ident_ ≠ vC.ident_)
    (hBC : vB.ident_ ≠ vC.ident_) (hd : 3 ≤ max_depth) :
    find_common_frame h max_depth B C = .ok (A, [B, A], [C, A]) ∧ A ≠ Root := by
  obtain ⟨n, rfl⟩ : ∃ n, max_depth = n + 3 := ⟨max_depth - 3, by omega⟩
  have cR := ancestor_chain_root h n Root vR hR hRo
  have cA := ancestor_chain_child h (n + 1) A Root vA vR _ hA hAo hR hRA cR
  have cB := ancestor_chain_child h (n + 2) B A vB vA _ hB hBo hA hAB cA
  have cC := ancestor_chain_child h (n + 2) C A vC vA _ hC hCo hA hAC cA
  refine ⟨?_, ?_⟩
  · simp only [find_common_frame, cB, cC]
    simp [scan_common, path_to_ident, hBC.symm, hAB, hRB, hAC.symm]
  · intro hAR
    rw [hAR, hR] at hA
    cases hA
    exact hRA rfl

theorem C16_common_frame_of_siblings_witness :
    find_common_frame sampleTree 3 (handleAt 2) (handleAt 3)
      = .ok (handleAt 1, [handleAt 2, handleAt 1], [handleAt 3, handleAt 1]) :=
  (C16_common_frame_of_siblings sampleTree 3 (handleAt 0) (handleAt 1) (handleAt 2)
    (handleAt 3)
    { ident_ := 0, origin_ := zeroPoseIn 0, timestamp_ := default_timestamp }
    { ident_ := 1, origin_ := zeroPoseIn 0, timestamp_ := default_timestamp }
    { ident_ := 2, origin_ := zeroPoseIn 1, timestamp_ := default_timestamp }
    { ident_ := 3, origin_ := zeroPoseIn 1, timestamp_ := default_timestamp }
    rfl rfl rfl rfl rfl rfl rfl rfl
    (by decide) (by decide) (by decide) (by decide) (by decide) (by decide)).1

theorem path_to_ident_none (i : Nat) (ct : List (ReferenceFrame × Nat))
    (hne : ∀ y ∈ ct, i ≠ y.2) : path_to_ident i ct = none := by
  induction ct with
  | nil => rfl
  | cons y rest ih =>
    obtain ⟨r, j⟩ := y
    have hj : ¬ j = i := fun e => hne (r, j) (List.mem_cons_self _ _) e.symm
    have hrest := ih fun y hy => hne y (List.mem_cons_of_mem _ hy)
    simp [path_to_ident, hj, hrest]

theorem scan_common_none (ct cf : List (ReferenceFrame × Nat))
    (hne : ∀ x ∈ cf, ∀ y ∈ ct, x.2 ≠ y.2) : scan_common ct cf = none := by
  induction cf with
  | nil => rfl
  | cons x rest ih =>
    obtain ⟨r, i⟩ := x
    have hx := path_to_ident_none i ct (hne (r, i) (List.mem_cons_self _ _))
    have hrest := ih fun x hx => hne x (List.mem_cons_of_mem _ hx)
    simp [scan_common, hx, hrest]

theorem ancestor_chain_head (h : Heap) (n : Nat) (r : ReferenceFrame)
    (c : List (ReferenceFrame × Nat)) (hc : ancestor_chain h n r = some c) :
    ∃ v, h.version? r = some v ∧ (r, v.ident_) ∈ c := by
  cases n with
  | zero => simp [ancestor_chain] at hc
  | succ n =>
    cases hv : h.version? r with
    | none => simp [ancestor_chain, hv] at hc
    | some v =>
      refine ⟨v, rfl, ?_⟩
      simp only [ancestor_chain, hv] at hc
      split_ifs at hc with he
      · cases hc
        exact List.mem_cons_self _ _
      · cases hp : ancestor_chain h n v.origin_frame with
        | none => simp [hp] at hc
        | some c2 =>
          simp only [hp, Option.map_some'] at hc
          cases hc
          exact List.mem_cons_self _ _

/-- C17: for any two frames whose ancestor chains exist and share no frame
identity, `find_common_frame` fails, and transforming any pose bound to the
first frame into the second fails with `unrelated_frames` whose `from_frame`
and `to_frame` are the two input frames. -/
theorem C17_disjoint_trees_fail (h : Heap) (max_depth : Nat) (F T : ReferenceFrame)
    (cf ct : List (ReferenceFrame × Nat))
    (hcf : ancestor_chain h max_depth F = some cf)
    (hct : ancestor_chain h max_depth T = some ct)
    (hne : ∀ x ∈ cf, ∀ y ∈ ct, x.2 ≠ y.2) :
    find_common_frame h max_depth F T = .error (.unrelated_frames F T) ∧
    ∀ (along : Pose → ReferenceFrame → ReferenceFrame → List ReferenceFrame →
        List ReferenceFrame → Except TransformError Pose) (coord : Pose),
      coord.frame = F →
      coord.transform_to h max_depth along T = .error (.unrelated_frames F T) := by
  have hfind : find_common_frame h max_depth F T = .error (.unrelated_frames F T) := by
    simp [find_common_frame, hcf, hct, scan_common_none ct cf hne]
  refine ⟨hfind, ?_⟩
  intro along coord hF
  obtain ⟨vf, hvf, hmf⟩ := ancestor_chain_head h max_depth F cf hcf
  obtain ⟨vt, hvt, hmt⟩ := ancestor_chain_head h max_depth T ct hct
  have hid : identity_equal h F T = false := by
    have := hne _ hmf _ hmt
    simp [identity_equal, hvf, hvt, this]
  simp [Pose.transform_to, hF, hid, hfind]

theorem C17_disjoint_trees_fail_witness :
    find_common_frame sampleForest 5 (handleAt 1) (handleAt 2)
      = .error (.unrelated_frames (handleAt 1) (handleAt 2)) ∧
    (zeroPoseIn 1).transform_to sampleForest 5 sampleAlong (handleAt 2)
      = .error (.unrelated_frames (handleAt 1) (handleAt 2)) :=
  ⟨(C17_disjoint_trees_fail sampleForest 5 (handleAt 1) (handleAt 2)
      [(handleAt 1, 1), (handleAt 0, 0)] [(handleAt 2, 2)] (by decide) (by decide)
      (by decide)).1,
    (C17_disjoint_trees_fail sampleForest 5 (handleAt 1) (handleAt 2)
      [(handleAt 1, 1), (handleAt 0, 0)] [(handleAt 2, 2)] (by decide) (by decide)
      (by decide)).2 sampleAlong (zeroPoseIn 1) rfl⟩

/-! ## Constructors and accessors -/

/-- C21: a frame version constructed from (type, name, origin, timestamp)
reports type() = type, id() = name, name() = the name member of the type
object, origin() = origin and timestamp() = timestamp; the constructors
without a type argument (origin only, or name and origin) give a frame whose
type() is `Cartesian`. -/
theorem C21_constructor_accessor_agreement (S : Statics) (h : Heap) (type : TypePtr)
    (name : String) (origin : Pose) (timestamp : Nat) :
    ((ReferenceFrameVersion.ofTypeNameOrigin h type name origin timestamp).2.type
        (ReferenceFrameVersion.ofTypeNameOrigin h type name origin timestamp).1 = some type ∧
      (ReferenceFrameVersion.ofTypeNameOrigin h type name origin timestamp).2.id
        (ReferenceFrameVersion.ofTypeNameOrigin h type name origin timestamp).1 = some name ∧
      (ReferenceFrameVersion.ofTypeNameOrigin h type name origin timestamp).2.name S
        (ReferenceFrameVersion.ofTypeNameOrigin h type name origin timestamp).1
          = some (S.types type).name ∧
      (ReferenceFrameVersion.ofTypeNameOrigin h type name origin timestamp).2.origin
        = origin ∧
      (ReferenceFrameVersion.ofTypeNameOrigin h type name origin timestamp).2.timestamp0
        = timestamp) ∧
    (ReferenceFrameVersion.ofOrigin S h origin timestamp).2.type
      (ReferenceFrameVersion.ofOrigin S h origin timestamp).1 = some S.Cartesian ∧
    (ReferenceFrameVersion.ofOrigin_default S h origin).2.type
      (ReferenceFrameVersion.ofOrigin_default S h origin).1 = some S.Cartesian ∧
    ((ReferenceFrameVersion.ofNameOrigin S h name origin timestamp).2.type
        (ReferenceFrameVersion.ofNameOrigin S h name origin timestamp).1 = some S.Cartesian ∧
      (ReferenceFrameVersion.ofNameOrigin S h name origin timestamp).2.id
        (ReferenceFrameVersion.ofNameOrigin S h name origin timestamp).1 = some name) ∧
    (ReferenceFrameVersion.ofNameOrigin_default S h name origin).2.type
      (ReferenceFrameVersion.ofNameOrigin_default S h name origin).1 = some S.Cartesian := by
  simp [ReferenceFrameVersion.ofTypeNameOrigin, ReferenceFrameVersion.ofOrigin,
    ReferenceFrameVersion.ofNameOrigin, ReferenceFrameVersion.ofOrigin_default,
    ReferenceFrameVersion.ofNameOrigin_default, ReferenceFrameVersion.type,
    ReferenceFrameVersion.id, ReferenceFrameVersion.name, ReferenceFrameVersion.ident,
    ReferenceFrameVersion.origin, ReferenceFrameVersion.timestamp0,
    Heap.make_shared_ident, Heap.ident?, ReferenceFrameIdentity.mk1,
    ReferenceFrameIdentity.mk2, ReferenceFrameIdentity.type, ReferenceFrameIdentity.id]

/-! ## Default normalisers -/

theorem sampleCopyAngular_writes (k : DoubleMem) (a b c p : Nat) (hp : p ≠ a) :
    sampleCopyAngular ⟨0⟩ k a b c p = k p := by
  simp [sampleCopyAngular, DoubleMem.write, hp]

theorem sampleCopyAngular_reads (k k2 : DoubleMem) (a b c p : Nat)
    (hb : k b = k2 b) (hp : k p = k2 p) :
    sampleCopyAngular ⟨0⟩ k a b c p = sampleCopyAngular ⟨0⟩ k2 a b c p := by
  simp [sampleCopyAngular, DoubleMem.write, hb, hp]

/-- C22 (as stated, refuted): `default_normalize_pose` takes six references,
not six values. With x and rx bound to one variable (address 0), the default
linear normaliser and an angular normaliser that assigns ry to rx, the call
leaves 2.0 in x where normalize_linear applied to (x, y, z) leaves 1.0, and a
second memory with the same x, y, z and another ry gives another x: the
linear output depends on the angular input. With six distinct variables and
a linear normaliser that reads a variable it was not passed (here the one rx
is bound to), the linear output again changes with the angular input. -/
theorem C22_shared_variables_counterexample :
    (default_normalize_pose sampleCopyStatics ⟨0⟩ sampleMemory 0 1 2 0 3 4 0 = sampleTwo ∧
      (sampleCopyStatics.types ⟨0⟩).normalize_linear ⟨0⟩ sampleMemory 0 1 2 0 = sampleOne ∧
      default_normalize_pose sampleCopyStatics ⟨0⟩ sampleMemory 0 1 2 0 3 4 0
        ≠ (sampleCopyStatics.types ⟨0⟩).normalize_linear ⟨0⟩ sampleMemory 0 1 2 0) ∧
    (sampleMemoryOther 0 = sampleMemory 0 ∧ sampleMemoryOther 1 = sampleMemory 1 ∧
      sampleMemoryOther 2 = sampleMemory 2 ∧
      default_normalize_pose sampleCopyStatics ⟨0⟩ sampleMemoryOther 0 1 2 0 3 4 0
        ≠ default_normalize_pose sampleCopyStatics ⟨0⟩ sampleMemory 0 1 2 0 3 4 0) ∧
    (default_normalize_pose sampleGlobalStatics ⟨0⟩ sampleMemory 0 1 2 3 4 5 0 = sampleTwo ∧
      default_normalize_pose sampleGlobalStatics ⟨0⟩ sampleMemoryOther 0 1 2 3 4 5 0
        = sampleThree ∧
      default_normalize_pose sampleGlobalStatics ⟨0⟩ sampleMemoryOther 0 1 2 3 4 5 0
        ≠ default_normalize_pose sampleGlobalStatics ⟨0⟩ sampleMemory 0 1 2 3 4 5 0) := by
  decide

/-- C22 (amended): `default_normalize_pose(T, x, y, z, rx, ry, rz)` runs
T's normalize_linear on the references (x, y, z) and then T's
normalize_angular on the references (rx, ry, rz) in the memory the first
call left. When each of the two normalisers writes only the three variables
passed to it and its output in them depends only on their values, and none
of x, y, z is the same variable as any of rx, ry, rz, then the call leaves in
x, y, z exactly what normalize_linear applied to (x, y, z) leaves there and
in rx, ry, rz exactly what normalize_angular applied to (rx, ry, rz) leaves
there, the linear output is the same for any other angular input and the
angular output is the same for any other linear input. When T's two
normalisers are `default_normalize_linear` and `default_normalize_angular`,
every variable, so each of the six, is left unchanged, whatever variables
the references are bound to. -/
theorem C22_default_normalize_pose_on_separate_variables (S : Statics) (T : TypePtr) :
    (∀ (m : DoubleMem) (x y z rx ry rz : Nat),
      default_normalize_pose S T m x y z rx ry rz
        = (S.types T).normalize_angular T ((S.types T).normalize_linear T m x y z) rx ry rz) ∧
    ((∀ (k : DoubleMem) (a b c p : Nat), p ≠ a → p ≠ b → p ≠ c →
        (S.types T).normalize_linear T k a b c p = k p) →
      (∀ (k k2 : DoubleMem) (a b c : Nat), k a = k2 a → k b = k2 b → k c = k2 c →
        ∀ p, p = a ∨ p = b ∨ p = c →
          (S.types T).normalize_linear T k a b c p = (S.types T).normalize_linear T k2 a b c p) →
      (∀ (k : DoubleMem) (a b c p : Nat), p ≠ a → p ≠ b → p ≠ c →
        (S.types T).normalize_angular T k a b c p = k p) →
      (∀ (k k2 : DoubleMem) (a b c : Nat), k a = k2 a → k b = k2 b → k c = k2 c →
        ∀ p, p = a ∨ p = b ∨ p = c →
          (S.types T).normalize_angular T k a b c p
            = (S.types T).normalize_angular T k2 a b c p) →
      ∀ (m m2 : DoubleMem) (x y z rx ry rz : Nat),
        (x ≠ rx ∧ x ≠ ry ∧ x ≠ rz) ∧ (y ≠ rx ∧ y ≠ ry ∧ y ≠ rz) ∧
          (z ≠ rx ∧ z ≠ ry ∧ z ≠ rz) →
        (∀ p, p = x ∨ p = y ∨ p = z →
          default_normalize_pose S T m x y z rx ry rz p
            = (S.types T).normalize_linear T m x y z p) ∧
        (∀ p, p = rx ∨ p = ry ∨ p = rz →
          default_normalize_pose S T m x y z rx ry rz p
            = (S.types T).normalize_angular T m rx ry rz p) ∧
        (m2 x = m x → m2 y = m y → m2 z = m z →
          ∀ p, p = x ∨ p = y ∨ p = z →
            default_normalize_pose S T m2 x y z rx ry rz p
              = default_normalize_pose S T m x y z rx ry rz p) ∧
        (m2 rx = m rx → m2 ry = m ry → m2 rz = m rz →
          ∀ p, p = rx ∨ p = ry ∨ p = rz →
            default_normalize_pose S T m2 x y z rx ry rz p
              = default_normalize_pose S T m x y z rx ry rz p)) ∧
    ((S.types T).normalize_linear = default_normalize_linear →
      (S.types T).normalize_angular = default_normalize_angular →
      ∀ (m : DoubleMem) (x y z rx ry rz : Nat),
        default_normalize_pose S T m x y z rx ry rz = m) := by
  refine ⟨fun _ _ _ _ _ _ _ => rfl, ?_, ?_⟩
  · intro hlw hlr haw har m m2 x y z rx ry rz hd
    obtain ⟨⟨hx1, hx2, hx3⟩, ⟨hy1, hy2, hy3⟩, ⟨hz1, hz2, hz3⟩⟩ := hd
    have lin : ∀ (k : DoubleMem) (p : Nat), p = x ∨ p = y ∨ p = z →
        default_normalize_pose S T k x y z rx ry rz p
          = (S.types T).normalize_linear T k x y z p := by
      intro k p hp
      show (S.types T).normalize_angular T ((S.types T).normalize_linear T k x y z) rx ry rz p
        = (S.types T).normalize_linear T k x y z p
      rcases hp with rfl | rfl | rfl
      · exact haw _ _ _ _ _ hx1 hx2 hx3
      · exact haw _ _ _ _ _ hy1 hy2 hy3
      · exact haw _ _ _ _ _ hz1 hz2 hz3
    have ang : ∀ (k : DoubleMem) (p : Nat), p = rx ∨ p = ry ∨ p = rz →
        default_normalize_pose S T k x y z rx ry rz p
          = (S.types T).normalize_angular T k rx ry rz p := by
      intro k p hp
      show (S.types T).normalize_angular T ((S.types T).normalize_linear T k x y z) rx ry rz p
        = (S.types T).normalize_angular T k rx ry rz p
      exact har _ _ _ _ _
        (hlw _ _ _ _ _ (Ne.symm hx1) (Ne.symm hy1) (Ne.symm hz1))
        (hlw _ _ _ _ _ (Ne.symm hx2) (Ne.symm hy2) (Ne.symm hz2))
        (hlw _ _ _ _ _ (Ne.symm hx3) (Ne.symm hy3) (Ne.symm hz3)) p hp
    refine ⟨lin m, ang m, ?_, ?_⟩
    · intro e1 e2 e3 p hp
      rw [lin m2 p hp, lin m p hp]
      exact hlr _ _ _ _ _ e1 e2 e3 p hp
    · intro e1 e2 e3 p hp
      rw [ang m2 p hp, ang m p hp]
      exact har _ _ _ _ _ e1 e2 e3 p hp
  · intro hl ha m x y z rx ry rz
    simp [default_normalize_pose, hl, ha, default_normalize_linear, default_normalize_angular]

theorem C22_default_normalize_pose_on_separate_variables_witness :
    ((0 ≠ 3 ∧ 0 ≠ 4 ∧ 0 ≠ 5) ∧ (1 ≠ 3 ∧ 1 ≠ 4 ∧ 1 ≠ 5) ∧ (2 ≠ 3 ∧ 2 ≠ 4 ∧ 2 ≠ 5)) ∧
    (∀ p, p = 3 ∨ p = 4 ∨ p = 5 →
      default_normalize_pose sampleCopyStatics ⟨0⟩ sampleMemory 0 1 2 3 4 5 p
        = sampleCopyAngular ⟨0⟩ sampleMemory 3 4 5 p) ∧
    default_normalize_pose sampleCopyStatics ⟨0⟩ sampleMemory 0 1 2 3 4 5 3 = sampleOne ∧
    default_normalize_pose sampleDefaultStatics ⟨0⟩ sampleMemory 0 1 2 0 3 4 = sampleMemory :=
  ⟨by decide,
    ((C22_default_normalize_pose_on_separate_variables sampleCopyStatics ⟨0⟩).2.1
      (fun _ _ _ _ _ _ _ _ => rfl)
      (fun _ _ _ _ _ e1 e2 e3 p hp => by
        rcases hp with h | h | h
        · rw [h]
          exact e1
        · rw [h]
          exact e2
        · rw [h]
          exact e3)
      (fun k a b c p hp _ _ => sampleCopyAngular_writes k a b c p hp)
      (fun k k2 a b c e1 e2 e3 p hp => by
        rcases hp with h | h | h
        · rw [h]
          exact sampleCopyAngular_reads k k2 a b c a e2 e1
        · rw [h]
          exact sampleCopyAngular_reads k k2 a b c b e2 e2
        · rw [h]
          exact sampleCopyAngular_reads k k2 a b c c e2 e3)
      sampleMemory sampleMemoryOther 0 1 2 3 4 5 (by decide)).2.1,
    by decide,
    (C22_default_normalize_pose_on_separate_variables sampleDefaultStatics ⟨0⟩).2.2
      rfl rfl sampleMemory 0 1 2 0 3 4⟩

/-! ## Parent frames -/

/-- C23: origin_frame() of every frame version is the frame its origin pose
is bound to; for every frame f, position q and timestamp t the frame
returned by `f.move(q, t)` has as origin_frame() the frame q is bound to,
which can differ from f.origin_frame() (it does for the sample frame moved
to a position bound to another frame), whereas the frame returned by
`f.orient(o, t)` has f.origin_frame() as its origin_frame() for every
orientation o. -/
theorem C23_move_reparents_orient_does_not (h : Heap) (f : ReferenceFrameVersion)
    (q : Position) (o : Orientation) (t : Nat) :
    f.origin_frame = f.origin.frame ∧
    (∃ g, (f.move2 h q t).1.version? (f.move2 h q t).2 = some g ∧
      g.origin_frame = q.frame_) ∧
    (∃ g, (f.orient2 h o t).1.version? (f.orient2 h o t).2 = some g ∧
      g.origin_frame = f.origin_frame) ∧
    (∃ g, (sampleFrame.move2 h samplePositionElsewhere t).1.version?
        (sampleFrame.move2 h samplePositionElsewhere t).2 = some g ∧
      g.origin_frame ≠ sampleFrame.origin_frame) :=
  ⟨rfl,
    ⟨_, Heap.version?_make_shared_version h _, rfl⟩,
    ⟨_, Heap.version?_make_shared_version h _, rfl⟩,
    ⟨_, Heap.version?_make_shared_version h _, by
      show samplePositionElsewhere.frame_ ≠ sampleFrame.origin_frame
      decide⟩⟩

/-! ## The latest timestamp -/

/-- C24: for every frame f, `f.timestamp(2^64 - 1)` and `f.pose(p, 2^64 - 1)`
have the timestamp() of a frame constructed with no timestamp argument, and
the version built by `f.timestamp(2^64 - 1)` is the very value the identity
constructor builds without a timestamp; every other 64-bit value t gives
timestamp() = t, different from that of a frame constructed with no
timestamp argument. -/
theorem C24_latest_is_an_ordinary_timestamp (S : Statics) (h : Heap)
    (f : ReferenceFrameVersion) (p origin : Pose) (t : Nat)
    (ht : t < 2 ^ 64) (hne : t ≠ 2 ^ 64 - 1) :
    (∃ g, (f.timestamp1 h (2 ^ 64 - 1)).1.version? (f.timestamp1 h (2 ^ 64 - 1)).2 = some g ∧
      g.timestamp0 = (ReferenceFrameVersion.ofOrigin_default S h origin).2.timestamp0 ∧
      g = ReferenceFrameVersion.ofIdentOrigin_default f.ident_ f.origin_) ∧
    (∃ g, (f.pose2 h p (2 ^ 64 - 1)).1.version? (f.pose2 h p (2 ^ 64 - 1)).2 = some g ∧
      g.timestamp0 = (ReferenceFrameVersion.ofOrigin_default S h origin).2.timestamp0 ∧
      g = ReferenceFrameVersion.ofIdentOrigin_default f.ident_ p) ∧
    (∃ g, (f.timestamp1 h t).1.version? (f.timestamp1 h t).2 = some g ∧
      g.timestamp0 = t ∧ t < 2 ^ 64 ∧
      g.timestamp0 ≠ (ReferenceFrameVersion.ofOrigin_default S h origin).2.timestamp0) := by
  have hd := default_timestamp_eq
  have e : ∀ q : Pose, ReferenceFrameVersion.ofIdentOrigin f.ident_ q (2 ^ 64 - 1)
      = ReferenceFrameVersion.ofIdentOrigin_default f.ident_ q := by
    intro q
    simp [ReferenceFrameVersion.ofIdentOrigin_default, hd]
  refine ⟨⟨_, Heap.version?_make_shared_version h _, hd.symm, e _⟩,
    ⟨_, Heap.version?_make_shared_version h _, hd.symm, e _⟩,
    ⟨_, Heap.version?_make_shared_version h _, rfl, ht, ?_⟩⟩
  show t ≠ default_timestamp
  rw [hd]
  exact hne

theorem C24_latest_is_an_ordinary_timestamp_witness :
    (5 : Nat) < 2 ^ 64 ∧ (5 : Nat) ≠ 2 ^ 64 - 1 ∧
    ∃ g, (sampleFrame.timestamp1 sampleHeap 5).1.version?
        (sampleFrame.timestamp1 sampleHeap 5).2 = some g ∧
      g.timestamp0 = 5 ∧ (5 : Nat) < 2 ^ 64 ∧
      g.timestamp0 ≠ (ReferenceFrameVersion.ofOrigin_default sampleStatics sampleHeap
        (samplePose 1 2 3 4 5 6)).2.timestamp0 :=
  ⟨by decide, by decide,
    (C24_latest_is_an_ordinary_timestamp sampleStatics sampleHeap sampleFrame
      (samplePose 0 0 0 0 0 0) (samplePose 1 2 3 4 5 6) 5 (by decide) (by decide)).2.2⟩

end Gams
